import Mathlib

/-!
Shallow embedding of the Magnets-puzzle CSP solver (`src/csp.rs`, with the
forward-checking and arc-consistency drivers of `src/fc.rs` / `src/mac.rs`).

Rust `usize` indices become `Nat`, `i32` counters become `Int`, vectors become
lists, and in-place mutation becomes explicit state passing.  Out-of-bounds
accesses (which panic in Rust) are given defaults; every theorem below only
exercises in-bounds accesses.
-/

/-- `Value` from csp.rs: the orientation assigned to a magnet slot. -/
inductive Value where
  | Pole1PositivePole2Negative
  | Pole2PositivePole1Negative
  | Empty
  | Unassigned
deriving DecidableEq, Repr

/-- `BoardCell` from csp.rs: the mark of a single grid cell. -/
inductive BoardCell where
  | Positive
  | Negative
  | Empty
  | Unassigned
deriving DecidableEq, Repr

/-- `Point` from csp.rs. -/
structure Point where
  row : Nat
  col : Nat
deriving DecidableEq, Repr

/-- `Variable` from csp.rs: a magnet slot with its two poles. -/
structure Variable where
  index : Nat
  poles : List Point
deriving DecidableEq, Repr

/-- `Constraint` from csp.rs. -/
inductive Constraint where
  | SignBased (xi_pole xj_pole : Nat)
  | LimitBased (xi_pole xj_pole : Nat)
deriving DecidableEq, Repr

/-- `ConstraintArc` from csp.rs. -/
structure ConstraintArc where
  xi : Nat
  xj : Nat
  constraint : Constraint
deriving DecidableEq, Repr

/-- `InferenceMode` from csp.rs. -/
inductive InferenceMode where
  | FC
  | MAC
deriving DecidableEq, Repr

/-- The `CSP` struct from csp.rs (targets and running counters are `i32`,
hence `Int`). -/
structure CSP where
  row_size : Nat
  col_size : Nat
  row_pos_poles : List Int
  row_neg_poles : List Int
  col_pos_poles : List Int
  col_neg_poles : List Int
  board : List (List BoardCell)
  board_variable_association : List (List Nat)
  vars : List Variable  -- `variables` in csp.rs (`variables` is reserved in Lean)
  inference_mode : InferenceMode
  curr_row_pos_poles : List Int
  curr_row_neg_poles : List Int
  curr_col_pos_poles : List Int
  curr_col_neg_poles : List Int
deriving DecidableEq, Repr

abbrev Assignment := List Value

abbrev Domain := List (List Value)

/-- Read `board[r][c]` (Rust panics out of bounds; we default). -/
def getCell (board : List (List BoardCell)) (r c : Nat) : BoardCell :=
  (board.getD r []).getD c BoardCell.Unassigned

/-- Write `board[r][c] = v`. -/
def setCell (board : List (List BoardCell)) (r c : Nat) (v : BoardCell) :
    List (List BoardCell) :=
  board.set r ((board.getD r []).set c v)

/-- Read an `i32` counter entry. -/
def getI (l : List Int) (i : Nat) : Int := l.getD i 0

/-- `l[i] += d` on an `i32` vector. -/
def bumpI (l : List Int) (i : Nat) (d : Int) : List Int :=
  l.set i (getI l i + d)

/-- Read `board_variable_association[r][c]`. -/
def getN2 (l : List (List Nat)) (r c : Nat) : Nat :=
  (l.getD r []).getD c 0

/-- Write into a nested `Nat` grid. -/
def setN2 (l : List (List Nat)) (r c : Nat) (v : Nat) : List (List Nat) :=
  l.set r ((l.getD r []).set c v)

/-- Read `assignment[i]`. -/
def getV (assignment : Assignment) (i : Nat) : Value :=
  assignment.getD i Value.Unassigned

/-- Read a raw-board marker (`u8` in Rust). -/
def getRaw (raw : List (List Nat)) (i j : Nat) : Nat :=
  (raw.getD i []).getD j 2

/-- Write a raw-board marker. -/
def setRaw (raw : List (List Nat)) (i j v : Nat) : List (List Nat) :=
  raw.set i ((raw.getD i []).set j v)

/-- Accumulator for the layout-derivation loop in `CSP::new`. -/
structure DeriveState where
  raw : List (List Nat)
  bva : List (List Nat)
  vars : List Variable
  idx : Nat
deriving Repr

/-- One iteration of the nested scan in `CSP::new` at cell `(i, j)`. -/
def deriveCell (row_size col_size : Nat) (s : DeriveState) (p : Nat × Nat) :
    DeriveState :=
  let i := p.1
  let j := p.2
  if getRaw s.raw i j = 1 then
    let down_i := i + 1
    if row_size ≤ down_i then s
    else
      { raw := setRaw (setRaw s.raw i j 2) down_i j 2
        bva := setN2 (setN2 s.bva i j s.idx) down_i j s.idx
        vars := s.vars ++ [⟨s.idx, [⟨i, j⟩, ⟨down_i, j⟩]⟩]
        idx := s.idx + 1 }
  else if getRaw s.raw i j = 0 then
    let right_j := j + 1
    if col_size ≤ right_j then s
    else
      { raw := setRaw (setRaw s.raw i j 2) i right_j 2
        bva := setN2 (setN2 s.bva i j s.idx) i right_j s.idx
        vars := s.vars ++ [⟨s.idx, [⟨i, j⟩, ⟨i, right_j⟩]⟩]
        idx := s.idx + 1 }
  else s

/-- The row-major cell order of the scan in `CSP::new`. -/
def cellList (row_size col_size : Nat) : List (Nat × Nat) :=
  (List.range row_size).flatMap fun i => (List.range col_size).map fun j => (i, j)

/-- `CSP::new` from csp.rs: derives the domino variables and the
cell-to-variable lookup from the raw marker grid. -/
def CSP.new (row_size col_size : Nat)
    (row_pos_poles row_neg_poles col_pos_poles col_neg_poles : List Int)
    (raw_board : List (List Nat)) (inference_mode : InferenceMode) : CSP :=
  let init : DeriveState :=
    { raw := raw_board
      bva := List.replicate row_size (List.replicate col_size 0)
      vars := []
      idx := 0 }
  let s := (cellList row_size col_size).foldl (deriveCell row_size col_size) init
  { row_size := row_size
    col_size := col_size
    row_pos_poles := row_pos_poles
    row_neg_poles := row_neg_poles
    col_pos_poles := col_pos_poles
    col_neg_poles := col_neg_poles
    board := List.replicate row_size (List.replicate col_size BoardCell.Unassigned)
    board_variable_association := s.bva
    vars := s.vars
    inference_mode := inference_mode
    curr_row_pos_poles := List.replicate row_pos_poles.length 0
    curr_row_neg_poles := List.replicate row_neg_poles.length 0
    curr_col_pos_poles := List.replicate col_pos_poles.length 0
    curr_col_neg_poles := List.replicate col_neg_poles.length 0 }

/-- Default variable used for (never-exercised) out-of-bounds lookups. -/
def dummyVar : Variable := ⟨0, []⟩

/-- Default point for out-of-bounds pole lookups. -/
def dummyPoint : Point := ⟨0, 0⟩

/-- `CSP::assign` from csp.rs.  Returns (applied?, new state, new assignment). -/
def CSP.assign (csp : CSP) (value : Value) (var_index : Nat)
    (assignment : Assignment) : Bool × CSP × Assignment :=
  let v := csp.vars.getD var_index dummyVar
  let p0 := v.poles.getD 0 dummyPoint
  let p1 := v.poles.getD 1 dummyPoint
  match value with
  | Value.Pole1PositivePole2Negative =>
    if getCell csp.board p0.row p0.col = BoardCell.Unassigned ∧
        getCell csp.board p1.row p1.col = BoardCell.Unassigned then
      (true,
       { csp with
         board := setCell (setCell csp.board p0.row p0.col BoardCell.Positive)
           p1.row p1.col BoardCell.Negative
         curr_row_pos_poles := bumpI csp.curr_row_pos_poles p0.row 1
         curr_col_pos_poles := bumpI csp.curr_col_pos_poles p0.col 1
         curr_row_neg_poles := bumpI csp.curr_row_neg_poles p1.row 1
         curr_col_neg_poles := bumpI csp.curr_col_neg_poles p1.col 1 },
       assignment.set var_index value)
    else (false, csp, assignment)
  | Value.Pole2PositivePole1Negative =>
    if getCell csp.board p0.row p0.col = BoardCell.Unassigned ∧
        getCell csp.board p1.row p1.col = BoardCell.Unassigned then
      (true,
       { csp with
         board := setCell (setCell csp.board p0.row p0.col BoardCell.Negative)
           p1.row p1.col BoardCell.Positive
         curr_row_neg_poles := bumpI csp.curr_row_neg_poles p0.row 1
         curr_col_neg_poles := bumpI csp.curr_col_neg_poles p0.col 1
         curr_row_pos_poles := bumpI csp.curr_row_pos_poles p1.row 1
         curr_col_pos_poles := bumpI csp.curr_col_pos_poles p1.col 1 },
       assignment.set var_index value)
    else (false, csp, assignment)
  | Value.Empty =>
    (true,
     { csp with
       board := setCell (setCell csp.board p0.row p0.col BoardCell.Empty)
         p1.row p1.col BoardCell.Empty },
     assignment.set var_index value)
  | Value.Unassigned => (false, csp, assignment)

/-- `CSP::unassign` from csp.rs. -/
def CSP.unassign (csp : CSP) (value : Value) (var_index : Nat)
    (assignment : Assignment) : CSP × Assignment :=
  let v := csp.vars.getD var_index dummyVar
  let p0 := v.poles.getD 0 dummyPoint
  let p1 := v.poles.getD 1 dummyPoint
  let csp := { csp with
    board := setCell (setCell csp.board p0.row p0.col BoardCell.Unassigned)
      p1.row p1.col BoardCell.Unassigned }
  let csp :=
    match value with
    | Value.Pole1PositivePole2Negative =>
      { csp with
        curr_row_pos_poles := bumpI csp.curr_row_pos_poles p0.row (-1)
        curr_col_pos_poles := bumpI csp.curr_col_pos_poles p0.col (-1)
        curr_row_neg_poles := bumpI csp.curr_row_neg_poles p1.row (-1)
        curr_col_neg_poles := bumpI csp.curr_col_neg_poles p1.col (-1) }
    | Value.Pole2PositivePole1Negative =>
      { csp with
        curr_row_neg_poles := bumpI csp.curr_row_neg_poles p0.row (-1)
        curr_col_neg_poles := bumpI csp.curr_col_neg_poles p0.col (-1)
        curr_row_pos_poles := bumpI csp.curr_row_pos_poles p1.row (-1)
        curr_col_pos_poles := bumpI csp.curr_col_pos_poles p1.col (-1) }
    | _ => csp
  (csp, assignment.set var_index Value.Unassigned)

/-- `CSP::is_complete` from csp.rs. -/
def CSP.is_complete (assignment : Assignment) : Bool :=
  assignment.foldl (fun acc v => acc && decide (v ≠ Value.Unassigned)) true

/-- `CSP::check_neighbors_pole_sign_constraint` from csp.rs. -/
def CSP.check_neighbors_pole_sign_constraint (csp : CSP) (cell : Point) : Bool :=
  match getCell csp.board cell.row cell.col with
  | BoardCell.Positive =>
    if cell.row + 1 < csp.row_size ∧
        getCell csp.board (cell.row + 1) cell.col = BoardCell.Positive then false
    else if 1 ≤ cell.row ∧
        getCell csp.board (cell.row - 1) cell.col = BoardCell.Positive then false
    else if cell.col + 1 < csp.col_size ∧
        getCell csp.board cell.row (cell.col + 1) = BoardCell.Positive then false
    else if 1 ≤ cell.col ∧
        getCell csp.board cell.row (cell.col - 1) = BoardCell.Positive then false
    else true
  | BoardCell.Negative =>
    if cell.row + 1 < csp.row_size ∧
        getCell csp.board (cell.row + 1) cell.col = BoardCell.Negative then false
    else if 1 ≤ cell.row ∧
        getCell csp.board (cell.row - 1) cell.col = BoardCell.Negative then false
    else if cell.col + 1 < csp.col_size ∧
        getCell csp.board cell.row (cell.col + 1) = BoardCell.Negative then false
    else if 1 ≤ cell.col ∧
        getCell csp.board cell.row (cell.col - 1) = BoardCell.Negative then false
    else true
  | _ => true

/-- Is every cell of row `r` marked (not `Unassigned`)?  Mirrors the
`poles_row_all_assigned` accumulations in `is_consistent`. -/
def rowAllAssigned (csp : CSP) (r : Nat) : Bool :=
  (List.range csp.col_size).foldl
    (fun acc j => acc && decide (getCell csp.board r j ≠ BoardCell.Unassigned)) true

/-- Is every cell of column `c` marked?  Mirrors the column accumulations in
`is_consistent` that start from `true`. -/
def colAllAssigned (csp : CSP) (c : Nat) : Bool :=
  (List.range csp.row_size).foldl
    (fun acc i => acc && decide (getCell csp.board i c ≠ BoardCell.Unassigned)) true

/-- The column accumulation for a vertical magnet in `is_consistent`
(csp.rs line 1064): the accumulator is initialized to `false`, so the fold
stays `false` — the exact-quota check for that column can never fire. -/
def colAllAssignedBug (csp : CSP) (c : Nat) : Bool :=
  (List.range csp.row_size).foldl
    (fun acc i => acc && decide (getCell csp.board i c ≠ BoardCell.Unassigned)) false

/-- `CSP::is_consistent` from csp.rs (including the `false` initialization of
`poles_col_all_assigned` for vertical magnets). -/
def CSP.is_consistent (csp : CSP) (var_index : Nat) : Bool :=
  let var := csp.vars.getD var_index dummyVar
  if var.poles.all fun pole => csp.check_neighbors_pole_sign_constraint pole then
    let p0 := var.poles.getD 0 dummyPoint
    let p1 := var.poles.getD 1 dummyPoint
    if p0.row = p1.row then
      -- horizontal magnet
      let poles_row := p0.row
      if rowAllAssigned csp poles_row ∧
          (getI csp.curr_row_pos_poles poles_row ≠ getI csp.row_pos_poles poles_row ∨
           getI csp.curr_row_neg_poles poles_row ≠ getI csp.row_neg_poles poles_row) then
        false
      else if getI csp.row_pos_poles poles_row < getI csp.curr_row_pos_poles poles_row ∨
          getI csp.row_neg_poles poles_row < getI csp.curr_row_neg_poles poles_row then
        false
      else
        let pole1_col := p0.col
        let pole2_col := p1.col
        if colAllAssigned csp pole1_col ∧
            (getI csp.curr_col_pos_poles pole1_col ≠ getI csp.col_pos_poles pole1_col ∨
             getI csp.curr_col_neg_poles pole1_col ≠ getI csp.col_neg_poles pole1_col) then
          false
        else if colAllAssigned csp pole2_col ∧
            (getI csp.curr_col_pos_poles pole2_col ≠ getI csp.col_pos_poles pole2_col ∨
             getI csp.curr_col_neg_poles pole2_col ≠ getI csp.col_neg_poles pole2_col) then
          false
        else if getI csp.col_pos_poles pole1_col < getI csp.curr_col_pos_poles pole1_col ∨
            getI csp.col_neg_poles pole1_col < getI csp.curr_col_neg_poles pole1_col then
          false
        else if getI csp.col_pos_poles pole2_col < getI csp.curr_col_pos_poles pole2_col ∨
            getI csp.col_neg_poles pole2_col < getI csp.curr_col_neg_poles pole2_col then
          false
        else true
    else if p0.col = p1.col then
      -- vertical magnet
      let pole1_row := p0.row
      let pole2_row := p1.row
      if rowAllAssigned csp pole1_row ∧
          (getI csp.curr_row_pos_poles pole1_row ≠ getI csp.row_pos_poles pole1_row ∨
           getI csp.curr_row_neg_poles pole1_row ≠ getI csp.row_neg_poles pole1_row) then
        false
      else if rowAllAssigned csp pole2_row ∧
          (getI csp.curr_row_pos_poles pole2_row ≠ getI csp.row_pos_poles pole2_row ∨
           getI csp.curr_row_neg_poles pole2_row ≠ getI csp.row_neg_poles pole2_row) then
        false
      else if getI csp.row_pos_poles pole1_row < getI csp.curr_row_pos_poles pole1_row ∨
          getI csp.row_neg_poles pole1_row < getI csp.curr_row_neg_poles pole1_row then
        false
      else if getI csp.row_pos_poles pole2_row < getI csp.curr_row_pos_poles pole2_row ∨
          getI csp.row_neg_poles pole2_row < getI csp.curr_row_neg_poles pole2_row then
        false
      else
        let poles_col := p0.col
        if colAllAssignedBug csp poles_col ∧
            (getI csp.curr_col_pos_poles poles_col ≠ getI csp.col_pos_poles poles_col ∨
             getI csp.curr_col_neg_poles poles_col ≠ getI csp.col_neg_poles poles_col) then
          false
        else if getI csp.col_pos_poles poles_col < getI csp.curr_col_pos_poles poles_col ∨
            getI csp.col_neg_poles poles_col < getI csp.curr_col_neg_poles poles_col then
          false
        else true
    else true
  else false

/-- `CSP::get_neighboring_cells` from csp.rs: the up-to-4 grid neighbors of
`cell`, filtered by the comparisons against the same-variable cell exactly as
in the source. -/
def CSP.get_neighboring_cells (csp : CSP) (cell same_variable_cell : Point) :
    List Point :=
  let l : List Point := []
  let l := if cell.row + 1 < csp.row_size ∧ cell.row + 1 ≠ same_variable_cell.row ∧
      cell.col ≠ same_variable_cell.col then
    l ++ [⟨cell.row + 1, cell.col⟩] else l
  let l := if 1 ≤ cell.row ∧ cell.row - 1 ≠ same_variable_cell.row ∧
      cell.col ≠ same_variable_cell.col then
    l ++ [⟨cell.row - 1, cell.col⟩] else l
  let l := if cell.col + 1 < csp.col_size ∧ cell.row ≠ same_variable_cell.row ∧
      cell.col + 1 ≠ same_variable_cell.col then
    l ++ [⟨cell.row, cell.col + 1⟩] else l
  let l := if 1 ≤ cell.col ∧ cell.row ≠ same_variable_cell.row ∧
      cell.col - 1 ≠ same_variable_cell.col then
    l ++ [⟨cell.row, cell.col - 1⟩] else l
  l

/-- `CSP::get_limiting_cells` from csp.rs: cells on the same row and column as
`cell`, with the source's same-variable-cell comparisons. -/
def CSP.get_limiting_cells (csp : CSP) (cell same_variable_cell : Point) :
    List Point :=
  let rowsPart := (List.range csp.row_size).filterMap fun i =>
    if i = cell.row then none
    else if i ≠ same_variable_cell.row ∧ cell.col ≠ same_variable_cell.col then
      some (⟨i, cell.col⟩ : Point)
    else none
  let colsPart := (List.range csp.col_size).filterMap fun j =>
    if j = cell.col then none
    else if cell.row ≠ same_variable_cell.row ∧ j ≠ same_variable_cell.col then
      some (⟨cell.row, j⟩ : Point)
    else none
  rowsPart ++ colsPart

/-- `CSP::get_pole_number` from csp.rs. -/
def get_pole_number (v : Variable) (cell : Point) : Nat :=
  let p0 := v.poles.getD 0 dummyPoint
  if cell.row = p0.row ∧ cell.col = p0.col then 0 else 1

/-- `CSP::get_neighbor_pole_based_inconsistent_value` from csp.rs:
given `xi`'s value, the value `xj` cannot take, by adjacent-pole signs. -/
def get_neighbor_pole_based_inconsistent_value (xi_value : Value)
    (xi_pole_index xj_pole_index : Nat) : Option Value :=
  match xi_value with
  | Value.Pole1PositivePole2Negative =>
    if xi_pole_index = 0 ∧ xj_pole_index = 0 then
      some Value.Pole1PositivePole2Negative
    else if xi_pole_index = 0 ∧ xj_pole_index = 1 then
      some Value.Pole2PositivePole1Negative
    else if xi_pole_index = 1 ∧ xj_pole_index = 0 then
      some Value.Pole2PositivePole1Negative
    else if xi_pole_index = 1 ∧ xj_pole_index = 1 then
      some Value.Pole1PositivePole2Negative
    else none
  | Value.Pole2PositivePole1Negative =>
    if xi_pole_index = 0 ∧ xj_pole_index = 0 then
      some Value.Pole2PositivePole1Negative
    else if xi_pole_index = 0 ∧ xj_pole_index = 1 then
      some Value.Pole1PositivePole2Negative
    else if xi_pole_index = 1 ∧ xj_pole_index = 0 then
      some Value.Pole1PositivePole2Negative
    else if xi_pole_index = 1 ∧ xj_pole_index = 1 then
      some Value.Pole2PositivePole1Negative
    else none
  | _ => none

/-- Emptiness of the `unassigned_vars_in_row` set built in
`get_neighbor_limit_based_inconsistent_value` (only its emptiness is used). -/
def noOtherUnassignedInRow (csp : CSP) (r xi_index xj_index : Nat)
    (assignment : Assignment) : Bool :=
  (List.range csp.col_size).all fun i =>
    let curr_var_index := getN2 csp.board_variable_association r i
    !(decide (curr_var_index ≠ xi_index) && decide (curr_var_index ≠ xj_index) &&
      decide (getV assignment curr_var_index = Value.Unassigned))

/-- Emptiness of the `unassigned_vars_in_col` set built in
`get_neighbor_limit_based_inconsistent_value`. -/
def noOtherUnassignedInCol (csp : CSP) (c xi_index xj_index : Nat)
    (assignment : Assignment) : Bool :=
  (List.range csp.row_size).all fun i =>
    let curr_var_index := getN2 csp.board_variable_association i c
    !(decide (curr_var_index ≠ xi_index) && decide (curr_var_index ≠ xj_index) &&
      decide (getV assignment curr_var_index = Value.Unassigned))

/-- `CSP::get_neighbor_limit_based_inconsistent_value` from csp.rs: given
`xi`'s value, the value `xj` cannot take, by row/column sign limits. -/
def CSP.get_neighbor_limit_based_inconsistent_value (csp : CSP)
    (xi_index xj_index : Nat) (xi_value : Value)
    (xi_pole_index xj_pole_index : Nat) (assignment : Assignment) :
    Option Value :=
  let xi := csp.vars.getD xi_index dummyVar
  let xj := csp.vars.getD xj_index dummyVar
  let xi_pole := xi.poles.getD xi_pole_index dummyPoint
  let xj_pole := xj.poles.getD xj_pole_index dummyPoint
  if xi_pole.row = xj_pole.row then
    let r := xi_pole.row
    let s0 : Int := getI csp.curr_row_pos_poles r
    let s1 := if getCell csp.board xi_pole.row xi_pole.col = BoardCell.Positive
      then s0 - 1 else s0
    let board_row_pos_sum :=
      if getCell csp.board xj_pole.row xj_pole.col = BoardCell.Positive
      then s1 - 1 else s1
    let t0 : Int := getI csp.curr_row_neg_poles r
    let t1 := if getCell csp.board xi_pole.row xi_pole.col = BoardCell.Negative
      then t0 - 1 else t0
    let board_row_neg_sum :=
      if getCell csp.board xj_pole.row xj_pole.col = BoardCell.Negative
      then t1 - 1 else t1
    if board_row_pos_sum = getI csp.row_pos_poles r - 1 then
      match xi_value with
      | Value.Pole1PositivePole2Negative =>
        if xi_pole_index = 0 ∧ xj_pole_index = 0 then
          some Value.Pole1PositivePole2Negative
        else if xi_pole_index = 0 ∧ xj_pole_index = 1 then
          some Value.Pole2PositivePole1Negative
        else none
      | Value.Pole2PositivePole1Negative =>
        if xi_pole_index = 1 ∧ xj_pole_index = 0 then
          some Value.Pole1PositivePole2Negative
        else if xi_pole_index = 1 ∧ xj_pole_index = 1 then
          some Value.Pole2PositivePole1Negative
        else none
      | _ => none
    else if board_row_neg_sum = getI csp.row_neg_poles r - 1 then
      match xi_value with
      | Value.Pole1PositivePole2Negative =>
        if xi_pole_index = 1 ∧ xj_pole_index = 0 then
          some Value.Pole2PositivePole1Negative
        else if xi_pole_index = 1 ∧ xj_pole_index = 1 then
          some Value.Pole1PositivePole2Negative
        else none
      | Value.Pole2PositivePole1Negative =>
        if xi_pole_index = 0 ∧ xj_pole_index = 0 then
          some Value.Pole2PositivePole1Negative
        else if xi_pole_index = 0 ∧ xj_pole_index = 1 then
          some Value.Pole1PositivePole2Negative
        else none
      | _ => none
    else if board_row_pos_sum = getI csp.row_pos_poles r - 2 then
      if noOtherUnassignedInRow csp r xi_index xj_index assignment then
        match xi_value with
        | Value.Pole1PositivePole2Negative =>
          if xi_pole_index = 0 then some Value.Empty else none
        | Value.Pole2PositivePole1Negative =>
          if xi_pole_index = 1 then some Value.Empty else none
        | _ => none
      else none
    else if board_row_neg_sum = getI csp.row_neg_poles r - 2 then
      if noOtherUnassignedInRow csp r xi_index xj_index assignment then
        match xi_value with
        | Value.Pole1PositivePole2Negative =>
          if xi_pole_index = 1 then some Value.Empty else none
        | Value.Pole2PositivePole1Negative =>
          if xi_pole_index = 0 then some Value.Empty else none
        | _ => none
      else none
    else none
  else if xi_pole.col = xj_pole.col then
    let c := xi_pole.col
    let s0 : Int := getI csp.curr_col_pos_poles c
    let s1 := if getCell csp.board xi_pole.row xi_pole.col = BoardCell.Positive
      then s0 - 1 else s0
    let board_col_pos_sum :=
      if getCell csp.board xj_pole.row xj_pole.col = BoardCell.Positive
      then s1 - 1 else s1
    let t0 : Int := getI csp.curr_col_neg_poles c
    let t1 := if getCell csp.board xi_pole.row xi_pole.col = BoardCell.Negative
      then t0 - 1 else t0
    let board_col_neg_sum :=
      if getCell csp.board xj_pole.row xj_pole.col = BoardCell.Negative
      then t1 - 1 else t1
    if board_col_pos_sum = getI csp.col_pos_poles c - 1 then
      match xi_value with
      | Value.Pole1PositivePole2Negative =>
        if xi_pole_index = 0 ∧ xj_pole_index = 0 then
          some Value.Pole1PositivePole2Negative
        else if xi_pole_index = 0 ∧ xj_pole_index = 1 then
          some Value.Pole2PositivePole1Negative
        else none
      | Value.Pole2PositivePole1Negative =>
        if xi_pole_index = 1 ∧ xj_pole_index = 0 then
          some Value.Pole1PositivePole2Negative
        else if xi_pole_index = 1 ∧ xj_pole_index = 1 then
          some Value.Pole2PositivePole1Negative
        else none
      | _ => none
    else if board_col_neg_sum = getI csp.col_neg_poles c - 1 then
      match xi_value with
      | Value.Pole1PositivePole2Negative =>
        if xi_pole_index = 1 ∧ xj_pole_index = 0 then
          some Value.Pole2PositivePole1Negative
        else if xi_pole_index = 1 ∧ xj_pole_index = 1 then
          some Value.Pole1PositivePole2Negative
        else none
      | Value.Pole2PositivePole1Negative =>
        if xi_pole_index = 0 ∧ xj_pole_index = 0 then
          some Value.Pole2PositivePole1Negative
        else if xi_pole_index = 0 ∧ xj_pole_index = 1 then
          some Value.Pole1PositivePole2Negative
        else none
      | _ => none
    else if board_col_pos_sum = getI csp.col_pos_poles c - 2 then
      if noOtherUnassignedInCol csp c xi_index xj_index assignment then
        match xi_value with
        | Value.Pole1PositivePole2Negative =>
          if xi_pole_index = 0 then some Value.Empty else none
        | Value.Pole2PositivePole1Negative =>
          if xi_pole_index = 1 then some Value.Empty else none
        | _ => none
      else none
    else if board_col_neg_sum = getI csp.col_neg_poles c - 2 then
      if noOtherUnassignedInCol csp c xi_index xj_index assignment then
        match xi_value with
        | Value.Pole1PositivePole2Negative =>
          if xi_pole_index = 1 then some Value.Empty else none
        | Value.Pole2PositivePole1Negative =>
          if xi_pole_index = 0 then some Value.Empty else none
        | _ => none
      else none
    else none
  else none

/-- `CSP::generate_arc_constraints` from csp.rs: appends to `arc_queue`, for
each pole, sign-based arcs toward the filtered neighboring cells and then
limit-based arcs toward the filtered limiting cells. -/
def CSP.generate_arc_constraints (csp : CSP) (var_index : Nat)
    (assignment : Assignment) (arc_queue : List ConstraintArc)
    (except_neighbor : Nat) : List ConstraintArc :=
  let v := csp.vars.getD var_index dummyVar
  (List.range 2).foldl (fun q pole_number =>
    let pole := v.poles.getD pole_number dummyPoint
    let other_pole := v.poles.getD ((pole_number + 1) % 2) dummyPoint
    let q := (csp.get_neighboring_cells pole other_pole).foldl (fun q neighbor_cell =>
      let neighbor_index :=
        getN2 csp.board_variable_association neighbor_cell.row neighbor_cell.col
      if neighbor_index = var_index ∨
          getV assignment neighbor_index ≠ Value.Unassigned ∨
          neighbor_index = except_neighbor then q
      else
        let neighbor := csp.vars.getD neighbor_index dummyVar
        let neighbor_pole_number := get_pole_number neighbor neighbor_cell
        q ++ [⟨neighbor_index, var_index,
          Constraint.SignBased neighbor_pole_number pole_number⟩]) q
    (csp.get_limiting_cells pole other_pole).foldl (fun q neighbor_cell =>
      let neighbor_index :=
        getN2 csp.board_variable_association neighbor_cell.row neighbor_cell.col
      if neighbor_index = var_index ∨
          getV assignment neighbor_index ≠ Value.Unassigned ∨
          neighbor_index = except_neighbor then q
      else
        let neighbor := csp.vars.getD neighbor_index dummyVar
        let neighbor_pole_number := get_pole_number neighbor neighbor_cell
        q ++ [⟨neighbor_index, var_index,
          Constraint.LimitBased neighbor_pole_number pole_number⟩]) q) arc_queue

/-- `Vec::swap_remove` at a valid position. -/
def swapRemove (l : List Value) (i : Nat) : List Value :=
  match l.getLast? with
  | none => l
  | some x => (l.set i x).dropLast

/-- `CSP::remove_value_from_domain` from csp.rs (swap-remove semantics:
the last element moves into the removed slot). -/
def remove_value_from_domain (value : Value) (domain : List Value) :
    Bool × List Value :=
  if domain.contains value then
    match domain.findIdx? (fun x => x = value) with
    | some pos => (true, swapRemove domain pos)
    | none => (false, domain)
  else (false, domain)

/-- `CSP::revise` from csp.rs: returns (feasible, revised, updated domains). -/
def CSP.revise (csp : CSP) (constraint_arc : ConstraintArc)
    (inferred_domains : Domain) (assignment : Assignment) :
    Bool × Bool × Domain :=
  let pr := match constraint_arc.constraint with
    | Constraint.SignBased a b => (a, b)
    | Constraint.LimitBased a b => (a, b)
  let xi_pole_index := pr.1
  let xj_pole_index := pr.2
  let xi_index := constraint_arc.xi
  let xj_index := constraint_arc.xj
  if xi_index = xj_index then (false, false, inferred_domains)
  else
    let xi_value := getV assignment xi_index
    let step := fun (acc : List Value × Nat) (xiv : Value) =>
      let tbd := acc.1
      let constraint_count := acc.2
      let value_unwrapped := match constraint_arc.constraint with
        | Constraint.SignBased _ _ =>
          get_neighbor_pole_based_inconsistent_value xiv xi_pole_index xj_pole_index
        | Constraint.LimitBased _ _ =>
          csp.get_neighbor_limit_based_inconsistent_value xi_index xj_index xiv
            xi_pole_index xj_pole_index assignment
      let acc2 := match value_unwrapped with
        | some value =>
          if getV assignment xj_index ≠ Value.Unassigned ∧
              getV assignment xj_index = value then
            (tbd ++ [xiv], constraint_count)
          else if (inferred_domains.getD xj_index []).contains value then
            (tbd, constraint_count + 1)
          else (tbd, constraint_count)
        | none => (tbd, constraint_count)
      if acc2.2 = (inferred_domains.getD xj_index []).length then
        (acc2.1 ++ [xiv], acc2.2)
      else acc2
    let to_be_deleted :=
      if xi_value = Value.Unassigned then
        ((inferred_domains.getD xi_index []).foldl step ([], 0)).1
      else []
    let revised := !to_be_deleted.isEmpty
    let inferred' :=
      if xi_value = Value.Unassigned then
        inferred_domains.set xi_index
          (to_be_deleted.foldl (fun d v => (remove_value_from_domain v d).2)
            (inferred_domains.getD xi_index []))
      else inferred_domains
    if (inferred'.getD xi_index []).length = 0 then (false, false, inferred')
    else (true, revised, inferred')

/-- Loop of `CSP::forward_checking` (fc.rs): drain the queue once, no
re-enqueueing. -/
def fcLoop (csp : CSP) (assignment : Assignment) :
    List ConstraintArc → Domain → Bool × Domain
  | [], inferred => (true, inferred)
  | arc :: rest, inferred =>
    let r := csp.revise arc inferred assignment
    if r.1 then fcLoop csp assignment rest r.2.2
    else (false, [])

/-- `CSP::forward_checking` from fc.rs. -/
def CSP.forward_checking (csp : CSP) (domains : Domain)
    (assignment : Assignment) (arc_queue : List ConstraintArc) : Bool × Domain :=
  fcLoop csp assignment arc_queue domains

/-- Loop of `CSP::maintaining_arc_consistency` (mac.rs): drain to fixpoint,
re-enqueueing the dependent variable's arcs whenever its domain was revised.
`fuel` only bounds the recursion; every concrete run below terminates with a
large remaining fuel (each revision strictly shrinks a domain, so the
Rust loop terminates as well). -/
def macLoop (csp : CSP) (assignment : Assignment) :
    Nat → List ConstraintArc → Domain → Bool × Domain
  | _, [], inferred => (true, inferred)
  | 0, _ :: _, inferred => (true, inferred)
  | fuel + 1, arc :: rest, inferred =>
    let r := csp.revise arc inferred assignment
    if r.1 then
      let queue' :=
        if r.2.1 then csp.generate_arc_constraints arc.xi assignment rest arc.xj
        else rest
      macLoop csp assignment fuel queue' r.2.2
    else (false, [])

/-- `CSP::maintaining_arc_consistency` from mac.rs. -/
def CSP.maintaining_arc_consistency (csp : CSP) (domains : Domain)
    (assignment : Assignment) (arc_queue : List ConstraintArc) : Bool × Domain :=
  macLoop csp assignment 1000000 arc_queue domains

/-- `CSP::inference` from csp.rs. -/
def CSP.inference (csp : CSP) (var_index : Nat) (domains : Domain)
    (assignment : Assignment) : Bool × Domain :=
  let arc_queue := csp.generate_arc_constraints var_index assignment [] var_index
  match csp.inference_mode with
  | InferenceMode.FC => csp.forward_checking domains assignment arc_queue
  | InferenceMode.MAC => csp.maintaining_arc_consistency domains assignment arc_queue

/-- `std::usize::MAX`, the initial MRV value in
`select_unassigned_variable`. -/
def usizeMax : Nat := 2 ^ 64 - 1

/-- `CSP::select_unassigned_variable` from csp.rs (MRV heuristic). -/
def CSP.select_unassigned_variable (csp : CSP) (domains : Domain)
    (assignment : Assignment) : Option Nat :=
  let acc := (List.range csp.vars.length).foldl
    (fun (acc : Nat × Nat) i =>
      if getV assignment i = Value.Unassigned ∧
          (domains.getD i []).length < acc.2 then
        (i, (domains.getD i []).length)
      else acc)
    (0, usizeMax)
  if getV assignment acc.1 = Value.Unassigned then some acc.1 else none

/-- `CSP::calculate_constraint_score` from csp.rs (the LCV score of a value). -/
def CSP.calculate_constraint_score (csp : CSP) (value : Value) (var_index : Nat)
    (domains : Domain) (assignment : Assignment) : Int :=
  let arc_queue := csp.generate_arc_constraints var_index assignment [] var_index
  arc_queue.foldl (fun constraint_score constraint_arc =>
    let pr := match constraint_arc.constraint with
      | Constraint.SignBased a b => (a, b)
      | Constraint.LimitBased a b => (a, b)
    let xi_pole_index := pr.1
    let xj_pole_index := pr.2
    let xi_index := constraint_arc.xi
    let xj_index := constraint_arc.xj
    if xi_index = xj_index then constraint_score
    else
      let xi_value := getV assignment xi_index
      let xj_value := value
      if xi_value = Value.Unassigned then
        let to_be_deleted := (domains.getD xi_index []).foldl
          (fun tbd xiv =>
            let value_unwrapped := match constraint_arc.constraint with
              | Constraint.SignBased _ _ =>
                get_neighbor_pole_based_inconsistent_value xiv xi_pole_index
                  xj_pole_index
              | Constraint.LimitBased _ _ =>
                csp.get_neighbor_limit_based_inconsistent_value xi_index xj_index
                  xiv xi_pole_index xj_pole_index assignment
            match value_unwrapped with
            | some v => if xj_value = v then tbd ++ [xiv] else tbd
            | none => tbd) []
        let constraint_score := constraint_score + (to_be_deleted.length : Int)
        if to_be_deleted.length ≠ 0 ∧ (domains.getD xi_index []).length = 1 then
          constraint_score + 5
        else constraint_score
      else constraint_score) 0

/-- Stable ascending insertion used to model Rust's stable
`sort_by(|a, b| a.1.cmp(&b.1))`. -/
def insertAsc (p : Value × Int) : List (Value × Int) → List (Value × Int)
  | [] => [p]
  | q :: rest => if q.2 ≤ p.2 then q :: insertAsc p rest else p :: q :: rest

/-- `CSP::order_domain_values` from csp.rs (LCV ordering, stable sort by
ascending constraint score). -/
def CSP.order_domain_values (csp : CSP) (var_index : Nat) (domains : Domain)
    (assignment : Assignment) : List Value :=
  let scored := (domains.getD var_index []).map fun v =>
    (v, csp.calculate_constraint_score v var_index domains assignment)
  (scored.foldl (fun acc p => insertAsc p acc) []).map (·.1)

/-- The per-value loop body of `CSP::backtrack` (csp.rs lines 179-194):
try the ordered values in turn; `bt` is the recursive call at the next
depth.  On a failed `assign` no rollback happens; on an inconsistent or
infeasible or failed branch the value is unassigned before moving on. -/
def tryValues (bt : CSP → Domain → Assignment → CSP × Assignment × Option Assignment)
    (var_index : Nat) (domains : Domain) :
    CSP → Assignment → List Value → CSP × Assignment × Option Assignment
  | csp, assignment, [] => (csp, assignment, none)
  | csp, assignment, value :: rest =>
    let a := csp.assign value var_index assignment
    if a.1 then
      let csp1 := a.2.1
      let asg1 := a.2.2
      if csp1.is_consistent var_index then
        let inf := csp1.inference var_index domains asg1
        if inf.1 then
          match bt csp1 inf.2 asg1 with
          | (csp2, asg2, some result) => (csp2, asg2, some result)
          | (csp2, asg2, none) =>
            let u := csp2.unassign value var_index asg2
            tryValues bt var_index domains u.1 u.2 rest
        else
          let u := csp1.unassign value var_index asg1
          tryValues bt var_index domains u.1 u.2 rest
      else
        let u := csp1.unassign value var_index asg1
        tryValues bt var_index domains u.1 u.2 rest
    else tryValues bt var_index domains a.2.1 a.2.2 rest

/-- `CSP::backtrack` from csp.rs, with a fuel bound on the recursion depth
(each level assigns one more variable, so `variables.length + 1` levels
always suffice). -/
def backtrack : Nat → CSP → Domain → Assignment → CSP × Assignment × Option Assignment
  | 0, csp, _, assignment => (csp, assignment, none)
  | fuel + 1, csp, domains, assignment =>
    if CSP.is_complete assignment then (csp, assignment, some assignment)
    else
      match csp.select_unassigned_variable domains assignment with
      | some var_index =>
        tryValues (backtrack fuel) var_index domains csp assignment
          (csp.order_domain_values var_index domains assignment)
      | none => (csp, assignment, none)

/-- `CSP::solve` from csp.rs: initial all-`Unassigned` assignment, full
three-value domains, then backtracking search.  Returns the final state,
final assignment vector, and the result. -/
def CSP.solve (csp : CSP) : CSP × Assignment × Option Assignment :=
  let initial_assignment : Assignment :=
    List.replicate csp.vars.length Value.Unassigned
  let initial_domain : Domain :=
    List.replicate csp.vars.length
      [Value.Pole1PositivePole2Negative, Value.Pole2PositivePole1Negative,
       Value.Empty]
  backtrack (csp.vars.length + 1) csp initial_domain initial_assignment

/-- Just the optional assignment returned by `solve`. -/
def CSP.solveResult (csp : CSP) : Option Assignment := csp.solve.2.2

/-- Number of cells of row `r` carrying mark `v`. -/
def rowCount (board : List (List BoardCell)) (r : Nat) (v : BoardCell) : Nat :=
  (board.getD r []).count v

/-- The cells of column `c` (top to bottom) of a board with `rows` rows. -/
def colCells (board : List (List BoardCell)) (rows c : Nat) : List BoardCell :=
  (List.range rows).map fun i => getCell board i c

/-- Number of cells of column `c` carrying mark `v`. -/
def colCount (board : List (List BoardCell)) (rows c : Nat) (v : BoardCell) : Nat :=
  (colCells board rows c).count v

/-- Modelled from the spec: the grid marks induced by an assignment (each
domino's two poles get the marks its orientation dictates, independently of
the engine's incremental board). -/
def applyAssignment (csp : CSP) (assignment : Assignment) :
    List (List BoardCell) :=
  (List.range csp.vars.length).foldl
    (fun b i =>
      let v := csp.vars.getD i dummyVar
      let p0 := v.poles.getD 0 dummyPoint
      let p1 := v.poles.getD 1 dummyPoint
      match getV assignment i with
      | Value.Pole1PositivePole2Negative =>
        setCell (setCell b p0.row p0.col BoardCell.Positive) p1.row p1.col
          BoardCell.Negative
      | Value.Pole2PositivePole1Negative =>
        setCell (setCell b p0.row p0.col BoardCell.Negative) p1.row p1.col
          BoardCell.Positive
      | Value.Empty =>
        setCell (setCell b p0.row p0.col BoardCell.Empty) p1.row p1.col
          BoardCell.Empty
      | Value.Unassigned => b)
    (List.replicate csp.row_size (List.replicate csp.col_size
      BoardCell.Unassigned))

/-- Modelled from the spec (§8, and claim C1): an assignment is a valid
solution iff it is complete, no two grid-adjacent cells carry the same
polarity, and every row and column meets its positive and negative targets
exactly. -/
def isValidSolution (csp : CSP) (assignment : Assignment) : Bool :=
  let b := applyAssignment csp assignment
  assignment.all (fun v => decide (v ≠ Value.Unassigned)) &&
  ((List.range csp.row_size).all fun r => (List.range csp.col_size).all fun c =>
    let m := getCell b r c
    !(decide ((m = BoardCell.Positive ∨ m = BoardCell.Negative) ∧
      ((r + 1 < csp.row_size ∧ getCell b (r + 1) c = m) ∨
       (c + 1 < csp.col_size ∧ getCell b r (c + 1) = m))))) &&
  ((List.range csp.row_size).all fun r =>
    decide ((rowCount b r BoardCell.Positive : Int) = getI csp.row_pos_poles r) &&
    decide ((rowCount b r BoardCell.Negative : Int) = getI csp.row_neg_poles r)) &&
  ((List.range csp.col_size).all fun c =>
    decide ((colCount b csp.row_size c BoardCell.Positive : Int) =
      getI csp.col_pos_poles c) &&
    decide ((colCount b csp.row_size c BoardCell.Negative : Int) =
      getI csp.col_neg_poles c))

/-- A 2-row, 1-column puzzle: one vertical domino, row targets all `0`,
column 0 requiring one positive and one negative pole.  No valid solution
exists, yet `solve` returns `some [Empty]`. -/
def cspC1 : CSP := CSP.new 2 1 [0, 0] [0, 0] [1] [1] [[1], [2]] InferenceMode.FC

/-- C1: the claim is violated by the code.  On `cspC1`, `solve` returns the
assignment `[Vacant]` although column 0 then contains zero `Positive` marks
while its positive target is `1`; indeed none of the three possible
assignments of the single domino is a valid solution, so by the claim `solve`
would have to return the absent value.  (Root cause: csp.rs line 1064
initializes `poles_col_all_assigned` to `false`, so the exact column-quota
check of a vertical magnet never fires.) -/
theorem C1_solve_returns_invalid_assignment :
    cspC1.solveResult = some [Value.Empty] ∧
    isValidSolution cspC1 [Value.Empty] = false ∧
    ([Value.Pole1PositivePole2Negative, Value.Pole2PositivePole1Negative,
      Value.Empty].all fun v => !isValidSolution cspC1 [v]) = true ∧
    (colCount cspC1.solve.1.board 2 0 BoardCell.Positive : Int) = 0 ∧
    getI cspC1.col_pos_poles 0 = 1 :=
  ⟨rfl, rfl, rfl, rfl, rfl⟩

/-- A 2-row, 3-column solvable puzzle with two vertical dominoes in columns 0
and 1 (cells of column 2 are orphans): `[ReversePolarity, Vacant]` is a valid
solution. -/
def cspC2inv (m : InferenceMode) : CSP :=
  CSP.new 2 3 [0, 1] [1, 0] [1, 0, 0] [1, 0, 0] [[1, 1, 0], [0, 0, 0]] m

/-- A 3-row, 3-column puzzle on which forward checking and
maintaining-arc-consistency disagree about whether a solution exists. -/
def cspC2diff (m : InferenceMode) : CSP :=
  CSP.new 3 3 [0, 0, 0] [3, 1, 2] [3, 2, 1] [3, 0, 3]
    [[0, 0, 2], [2, 1, 1], [2, 1, 1]] m

/-- C2: the claim is violated by the code, in both of its parts.  On the
solvable instance `cspC2inv` (the assignment `[ReversePolarity, Vacant]` is
valid) both inference modes return the assignment `[Vacant, Vacant]`, which is
not a valid solution.  Moreover on `cspC2diff` the two propagation strategies
change whether `solve` returns a solution at all: forward checking returns
`some`, maintaining arc consistency returns `none`. -/
theorem C2_propagators_not_equivalent :
    isValidSolution (cspC2inv InferenceMode.FC)
      [Value.Pole2PositivePole1Negative, Value.Empty] = true ∧
    (cspC2inv InferenceMode.FC).solveResult =
      some [Value.Empty, Value.Empty] ∧
    (cspC2inv InferenceMode.MAC).solveResult =
      some [Value.Empty, Value.Empty] ∧
    isValidSolution (cspC2inv InferenceMode.FC) [Value.Empty, Value.Empty] =
      false ∧
    (cspC2diff InferenceMode.FC).solveResult =
      some [Value.Empty, Value.Empty, Value.Empty] ∧
    (cspC2diff InferenceMode.MAC).solveResult = none :=
  ⟨rfl, rfl, rfl, rfl, rfl, rfl⟩

/-- The state of `cspC1` after assigning `Vacant` to its single (vertical)
domino: both cells of column 0 are marked `Empty`. -/
def c3state : CSP := (cspC1.assign Value.Empty 0 [Value.Unassigned]).2.1

/-- C3: the claim is violated by the code for the shared column of a vertical
domino.  In `c3state` every cell of column 0 (a column touched by both poles)
is marked, the running positive counter (`0`) differs from the column's
positive target (`1`), yet `is_consistent` returns `true`: the exact-quota
check for the column of a vertical magnet never fires because csp.rs line
1064 initializes its all-assigned accumulator to `false`
(`colAllAssignedBug`). -/
theorem C3_vertical_column_quota_unchecked :
    ((List.range c3state.row_size).all fun i =>
      decide (getCell c3state.board i 0 ≠ BoardCell.Unassigned)) = true ∧
    getI c3state.curr_col_pos_poles 0 = 0 ∧
    getI c3state.col_pos_poles 0 = 1 ∧
    c3state.is_consistent 0 = true ∧
    colAllAssignedBug c3state 0 = false :=
  ⟨rfl, rfl, rfl, rfl, rfl⟩

theorem getD_set_eq {α : Type} (l : List α) (i j : Nat) (v d : α) :
    (l.set i v).getD j d = if i = j ∧ i < l.length then v else l.getD j d := by
  rw [List.getD_eq_getElem?_getD, List.getD_eq_getElem?_getD, List.getElem?_set]
  by_cases h1 : i = j
  · subst h1
    by_cases h2 : i < l.length
    · simp [h2]
    · rw [if_pos rfl, if_neg h2, if_neg (by tauto),
        List.getElem?_eq_none (Nat.le_of_not_lt h2)]
  · rw [if_neg h1, if_neg (by tauto)]

theorem getD_replicate_eq {α : Type} (n i : Nat) (a d : α) :
    (List.replicate n a).getD i d = if i < n then a else d := by
  rw [List.getD_eq_getElem?_getD, List.getElem?_replicate]
  by_cases h : i < n <;> simp [h]

theorem getN2_setN2 (l : List (List Nat)) (r c r' c' v : Nat)
    (hr : r < l.length) (hc : c < (l.getD r []).length) :
    getN2 (setN2 l r c v) r' c' =
      if r = r' ∧ c = c' then v else getN2 l r' c' := by
  unfold getN2 setN2
  rw [getD_set_eq]
  by_cases h : r = r'
  · subst h
    rw [if_pos ⟨rfl, hr⟩, getD_set_eq]
    by_cases h2 : c = c'
    · subst h2
      rw [if_pos ⟨rfl, hc⟩, if_pos ⟨rfl, rfl⟩]
    · rw [if_neg (by tauto), if_neg (by tauto)]
  · rw [if_neg (by tauto), if_neg (by tauto)]

/-- Shape and orphan-cell invariant carried through the layout-derivation
fold of `CSP.new`. -/
def DeriveInv (row_size col_size : Nat) (s : DeriveState) : Prop :=
  s.bva.length = row_size ∧
  (∀ row ∈ s.bva, row.length = col_size) ∧
  (∀ r c : Nat, (∀ v ∈ s.vars, (⟨r, c⟩ : Point) ∉ v.poles) →
    getN2 s.bva r c = 0)

theorem mem_cellList (row_size col_size : Nat) (p : Nat × Nat) :
    p ∈ cellList row_size col_size ↔ p.1 < row_size ∧ p.2 < col_size := by
  cases p with
  | mk i j =>
    simp only [cellList, List.mem_flatMap, List.mem_map, List.mem_range]
    constructor
    · rintro ⟨a, ha, b, hb, h1⟩
      obtain ⟨h2, h3⟩ := Prod.mk.injEq a b i j ▸ h1
      exact ⟨h2 ▸ ha, h3 ▸ hb⟩
    · rintro ⟨hi, hj⟩
      exact ⟨i, hi, j, hj, rfl⟩

theorem bvaRowLen (row_size col_size : Nat) (bva : List (List Nat))
    (h1 : bva.length = row_size) (h2 : ∀ row ∈ bva, row.length = col_size)
    (a : Nat) (ha : a < row_size) : (bva.getD a []).length = col_size := by
  have halt : a < bva.length := by omega
  rw [List.getD_eq_getElem?_getD, List.getElem?_eq_getElem halt]
  exact h2 _ (List.getElem_mem halt)

theorem shape_setN2 (row_size col_size : Nat) (bva : List (List Nat))
    (a b v : Nat) (ha : a < row_size)
    (h1 : bva.length = row_size) (h2 : ∀ row ∈ bva, row.length = col_size) :
    (setN2 bva a b v).length = row_size ∧
      ∀ row ∈ setN2 bva a b v, row.length = col_size := by
  constructor
  · simp [setN2, List.length_set, h1]
  · intro row hrow
    rcases List.mem_or_eq_of_mem_set hrow with hmem | heq
    · exact h2 _ hmem
    · subst heq
      rw [List.length_set]
      exact bvaRowLen row_size col_size bva h1 h2 a ha

theorem deriveInv_step (row_size col_size : Nat) (s : DeriveState)
    (p : Nat × Nat) (hp : p ∈ cellList row_size col_size)
    (h : DeriveInv row_size col_size s) :
    DeriveInv row_size col_size (deriveCell row_size col_size s p) := by
  obtain ⟨hlen, hrows, hzero⟩ := h
  obtain ⟨hi, hj⟩ := (mem_cellList row_size col_size p).mp hp
  simp only [deriveCell]
  split
  · -- marker 1: vertical pairing
    split
    · exact ⟨hlen, hrows, hzero⟩
    · rename_i h2
      have hdown : p.1 + 1 < row_size := by omega
      have hs1 := shape_setN2 row_size col_size s.bva p.1 p.2 s.idx hi hlen hrows
      have hs2 := shape_setN2 row_size col_size _ (p.1 + 1) p.2 s.idx hdown
        hs1.1 hs1.2
      refine ⟨hs2.1, hs2.2, ?_⟩
      intro r c hnp
      have hnew := hnp ⟨s.idx, [⟨p.1, p.2⟩, ⟨p.1 + 1, p.2⟩]⟩ (by simp)
      have hold : ∀ v ∈ s.vars, (⟨r, c⟩ : Point) ∉ v.poles := fun v hv =>
        hnp v (by simp [hv])
      simp only [List.mem_cons, List.not_mem_nil, or_false, not_or,
        Point.mk.injEq] at hnew
      show getN2 (setN2 (setN2 s.bva p.1 p.2 s.idx) (p.1 + 1) p.2 s.idx) r c = 0
      rw [getN2_setN2 _ _ _ _ _ _ (by omega)
        (by rw [bvaRowLen row_size col_size _ hs1.1 hs1.2 (p.1 + 1) hdown]
            exact hj)]
      rw [if_neg (by rintro ⟨ha, hb⟩; exact hnew.2 ⟨ha.symm, hb.symm⟩)]
      rw [getN2_setN2 _ _ _ _ _ _ (by omega)
        (by rw [bvaRowLen row_size col_size _ hlen hrows p.1 hi]; exact hj)]
      rw [if_neg (by rintro ⟨ha, hb⟩; exact hnew.1 ⟨ha.symm, hb.symm⟩)]
      exact hzero r c hold
  · split
    · -- marker 0: horizontal pairing
      split
      · exact ⟨hlen, hrows, hzero⟩
      · rename_i h2
        have hright : p.2 + 1 < col_size := by omega
        have hs1 := shape_setN2 row_size col_size s.bva p.1 p.2 s.idx hi hlen
          hrows
        have hs2 := shape_setN2 row_size col_size _ p.1 (p.2 + 1) s.idx hi
          hs1.1 hs1.2
        refine ⟨hs2.1, hs2.2, ?_⟩
        intro r c hnp
        have hnew := hnp ⟨s.idx, [⟨p.1, p.2⟩, ⟨p.1, p.2 + 1⟩]⟩ (by simp)
        have hold : ∀ v ∈ s.vars, (⟨r, c⟩ : Point) ∉ v.poles := fun v hv =>
          hnp v (by simp [hv])
        simp only [List.mem_cons, List.not_mem_nil, or_false, not_or,
          Point.mk.injEq] at hnew
        show getN2 (setN2 (setN2 s.bva p.1 p.2 s.idx) p.1 (p.2 + 1) s.idx)
          r c = 0
        rw [getN2_setN2 _ _ _ _ _ _ (by omega)
          (by rw [bvaRowLen row_size col_size _ hs1.1 hs1.2 p.1 hi]
              exact hright)]
        rw [if_neg (by rintro ⟨ha, hb⟩; exact hnew.2 ⟨ha.symm, hb.symm⟩)]
        rw [getN2_setN2 _ _ _ _ _ _ (by omega)
          (by rw [bvaRowLen row_size col_size _ hlen hrows p.1 hi]; exact hj)]
        rw [if_neg (by rintro ⟨ha, hb⟩; exact hnew.1 ⟨ha.symm, hb.symm⟩)]
        exact hzero r c hold
    · exact ⟨hlen, hrows, hzero⟩

/-- C10: confirmed.  Every grid cell that is not a pole of any derived domino
keeps its default cell-to-variable lookup entry `0`, the index of the first
domino; arc generation and all other consumers read ownership through this
lookup, so such a cell is treated as owned by domino 0. -/
theorem C10_unowned_cell_lookup_is_zero (row_size col_size : Nat)
    (rp rn cp cn : List Int) (raw : List (List Nat)) (mode : InferenceMode)
    (r c : Nat)
    (hnp : ∀ v ∈ (CSP.new row_size col_size rp rn cp cn raw mode).vars,
      (⟨r, c⟩ : Point) ∉ v.poles) :
    getN2 (CSP.new row_size col_size rp rn cp cn raw
      mode).board_variable_association r c = 0 := by
  have hinv : DeriveInv row_size col_size
      ((cellList row_size col_size).foldl (deriveCell row_size col_size)
        { raw := raw,
          bva := List.replicate row_size (List.replicate col_size 0),
          vars := [], idx := 0 }) := by
    apply List.foldlRecOn
    · refine ⟨by simp, ?_, ?_⟩
      · intro row hrow
        rw [List.eq_of_mem_replicate hrow]
        simp
      · intro a b _
        unfold getN2
        rw [getD_replicate_eq]
        by_cases ha : a < row_size
        · rw [if_pos ha, getD_replicate_eq]
          by_cases hb : b < col_size
          · rw [if_pos hb]
          · rw [if_neg hb]
        · rw [if_neg ha]
          simp
    · intro s hs p hp
      exact deriveInv_step row_size col_size s p hp hs
  exact hinv.2.2 r c hnp

/-- A 1-by-1 grid whose only marker is an orphan `1` (its partner would fall
outside the grid): no variables are derived. -/
def cspC10 : CSP := CSP.new 1 1 [0] [0] [0] [0] [[1]] InferenceMode.FC

/-- Witness for C10 at a concrete orphan cell. -/
theorem C10_unowned_cell_lookup_is_zero_witness :
    (∀ v ∈ cspC10.vars, (⟨0, 0⟩ : Point) ∉ v.poles) ∧
    getN2 cspC10.board_variable_association 0 0 = 0 :=
  ⟨by decide, C10_unowned_cell_lookup_is_zero 1 1 [0] [0] [0] [0] [[1]]
    InferenceMode.FC 0 0 (by decide)⟩

theorem mrv_fold_spec (domains : Domain) (assignment : Assignment) (m : Nat) :
    (((List.range m).foldl
        (fun (acc : Nat × Nat) i =>
          if getV assignment i = Value.Unassigned ∧
              (domains.getD i []).length < acc.2 then
            (i, (domains.getD i []).length)
          else acc) (0, usizeMax)) = (0, usizeMax) ∧
      ∀ i, i < m → getV assignment i = Value.Unassigned →
        ¬((domains.getD i []).length < usizeMax)) ∨
    ((((List.range m).foldl
        (fun (acc : Nat × Nat) i =>
          if getV assignment i = Value.Unassigned ∧
              (domains.getD i []).length < acc.2 then
            (i, (domains.getD i []).length)
          else acc) (0, usizeMax)).2 < usizeMax) ∧
      (((List.range m).foldl
        (fun (acc : Nat × Nat) i =>
          if getV assignment i = Value.Unassigned ∧
              (domains.getD i []).length < acc.2 then
            (i, (domains.getD i []).length)
          else acc) (0, usizeMax)).1 < m) ∧
      getV assignment (((List.range m).foldl
        (fun (acc : Nat × Nat) i =>
          if getV assignment i = Value.Unassigned ∧
              (domains.getD i []).length < acc.2 then
            (i, (domains.getD i []).length)
          else acc) (0, usizeMax)).1) = Value.Unassigned ∧
      (domains.getD (((List.range m).foldl
        (fun (acc : Nat × Nat) i =>
          if getV assignment i = Value.Unassigned ∧
              (domains.getD i []).length < acc.2 then
            (i, (domains.getD i []).length)
          else acc) (0, usizeMax)).1) []).length = (((List.range m).foldl
        (fun (acc : Nat × Nat) i =>
          if getV assignment i = Value.Unassigned ∧
              (domains.getD i []).length < acc.2 then
            (i, (domains.getD i []).length)
          else acc) (0, usizeMax)).2) ∧
      (∀ i, i < m → getV assignment i = Value.Unassigned →
        (((List.range m).foldl
        (fun (acc : Nat × Nat) i =>
          if getV assignment i = Value.Unassigned ∧
              (domains.getD i []).length < acc.2 then
            (i, (domains.getD i []).length)
          else acc) (0, usizeMax)).2) ≤ (domains.getD i []).length) ∧
      (∀ i, i < (((List.range m).foldl
        (fun (acc : Nat × Nat) i =>
          if getV assignment i = Value.Unassigned ∧
              (domains.getD i []).length < acc.2 then
            (i, (domains.getD i []).length)
          else acc) (0, usizeMax)).1) → getV assignment i = Value.Unassigned →
        (((List.range m).foldl
        (fun (acc : Nat × Nat) i =>
          if getV assignment i = Value.Unassigned ∧
              (domains.getD i []).length < acc.2 then
            (i, (domains.getD i []).length)
          else acc) (0, usizeMax)).2) < (domains.getD i []).length)) := by
  induction m with
  | zero =>
    left
    exact ⟨rfl, fun i hi => absurd hi (Nat.not_lt_zero i)⟩
  | succ m ih =>
    simp only [List.range_succ, List.foldl_append, List.foldl_cons,
      List.foldl_nil]
    rcases ih with ⟨h1, h2⟩ | ⟨hlt, hbound, hU, hlen, hall, hfirst⟩
    · rw [h1]
      by_cases hc : getV assignment m = Value.Unassigned ∧
          (domains.getD m []).length < (((0 : Nat), usizeMax)).2
      · right
        rw [if_pos hc]
        refine ⟨hc.2, Nat.lt_succ_self m, hc.1, rfl, ?_, ?_⟩
        · intro i hi hU2
          rcases Nat.lt_succ_iff_lt_or_eq.mp hi with hlt2 | heq
          · have := h2 i hlt2 hU2
            omega
          · subst heq
            exact Nat.le_refl _
        · intro i hi hU2
          have := h2 i hi hU2
          omega
      · left
        rw [if_neg hc]
        refine ⟨rfl, ?_⟩
        intro i hi hU2
        rcases Nat.lt_succ_iff_lt_or_eq.mp hi with hlt2 | heq
        · exact h2 i hlt2 hU2
        · subst heq
          intro hlen2
          exact hc ⟨hU2, hlen2⟩
    · by_cases hc : getV assignment m = Value.Unassigned ∧
          (domains.getD m []).length <
            (((List.range m).foldl
              (fun (acc : Nat × Nat) i =>
                if getV assignment i = Value.Unassigned ∧
                    (domains.getD i []).length < acc.2 then
                  (i, (domains.getD i []).length)
                else acc) (0, usizeMax)).2)
      · right
        rw [if_pos hc]
        refine ⟨by omega, Nat.lt_succ_self m, hc.1, rfl, ?_, ?_⟩
        · intro i hi hU2
          rcases Nat.lt_succ_iff_lt_or_eq.mp hi with hlt2 | heq
          · have := hall i hlt2 hU2
            omega
          · subst heq
            exact Nat.le_refl _
        · intro i hi hU2
          have := hall i (by omega) hU2
          omega
      · right
        rw [if_neg hc]
        refine ⟨hlt, by omega, hU, hlen, ?_, hfirst⟩
        intro i hi hU2
        rcases Nat.lt_succ_iff_lt_or_eq.mp hi with hlt2 | heq
        · exact hall i hlt2 hU2
        · have hU3 : getV assignment m = Value.Unassigned := heq ▸ hU2
          have hnl : ¬((domains.getD m []).length <
              (((List.range m).foldl
                (fun (acc : Nat × Nat) i =>
                  if getV assignment i = Value.Unassigned ∧
                      (domains.getD i []).length < acc.2 then
                    (i, (domains.getD i []).length)
                  else acc) (0, usizeMax)).2)) := fun hl => hc ⟨hU3, hl⟩
          rw [heq]
          omega

/-- C9: confirmed.  For a CSP with at least one domino (and domains of
machine-representable size, as in the Rust program), `select_unassigned_variable`
returns `none` exactly when every domino is resolved, and otherwise returns an
unresolved domino of minimal current domain size, ties broken by lowest
index (every smaller-index unresolved domino has a strictly larger domain). -/
theorem C9_mrv_selection (csp : CSP) (domains : Domain)
    (assignment : Assignment) (hne : csp.vars.length ≠ 0)
    (hdom : ∀ i, i < csp.vars.length →
      (domains.getD i []).length < usizeMax) :
    ((∀ i, i < csp.vars.length → getV assignment i ≠ Value.Unassigned) ↔
      csp.select_unassigned_variable domains assignment = none) ∧
    (∀ k, csp.select_unassigned_variable domains assignment = some k →
      k < csp.vars.length ∧ getV assignment k = Value.Unassigned ∧
      (∀ j, j < csp.vars.length → getV assignment j = Value.Unassigned →
        (domains.getD k []).length ≤ (domains.getD j []).length) ∧
      (∀ j, j < k → getV assignment j = Value.Unassigned →
        (domains.getD k []).length < (domains.getD j []).length)) := by
  have hsel : csp.select_unassigned_variable domains assignment =
      (if getV assignment (((List.range csp.vars.length).foldl
          (fun (acc : Nat × Nat) i =>
            if getV assignment i = Value.Unassigned ∧
                (domains.getD i []).length < acc.2 then
              (i, (domains.getD i []).length)
            else acc) (0, usizeMax)).1) = Value.Unassigned then
        some (((List.range csp.vars.length).foldl
          (fun (acc : Nat × Nat) i =>
            if getV assignment i = Value.Unassigned ∧
                (domains.getD i []).length < acc.2 then
              (i, (domains.getD i []).length)
            else acc) (0, usizeMax)).1)
      else none) := rfl
  rcases mrv_fold_spec domains assignment csp.vars.length with
    ⟨h1, h2⟩ | ⟨hlt, hbound, hU, hlen, hall, hfirst⟩
  · rw [h1] at hsel
    dsimp only at hsel
    constructor
    · constructor
      · intro hres
        rw [hsel, if_neg (hres 0 (Nat.pos_of_ne_zero hne))]
      · intro _ i hi hU2
        exact absurd (hdom i hi) (h2 i hi hU2)
    · intro k hk
      rw [hsel] at hk
      by_cases h0 : getV assignment 0 = Value.Unassigned
      · exact absurd (hdom 0 (Nat.pos_of_ne_zero hne))
          (h2 0 (Nat.pos_of_ne_zero hne) h0)
      · rw [if_neg h0] at hk
        exact Option.noConfusion hk
  · rw [if_pos hU] at hsel
    constructor
    · constructor
      · intro hres
        exact absurd hU (hres _ hbound)
      · intro hnone
        rw [hsel] at hnone
        exact Option.noConfusion hnone
    · intro k hk
      rw [hsel] at hk
      injection hk with hk
      subst hk
      refine ⟨hbound, hU, ?_, ?_⟩
      · intro j hj hU2
        rw [hlen]
        exact hall j hj hU2
      · intro j hj hU2
        rw [hlen]
        exact hfirst j hj hU2

/-- A 1-by-4 grid with two horizontal dominoes (cells 0-1 and 2-3). -/
def cspC4 : CSP :=
  CSP.new 1 4 [0] [0] [0, 0, 0, 0] [0, 0, 0, 0] [[0, 2, 0, 2]] InferenceMode.FC

/-- Witness instance for C9: the 1-by-4 two-domino CSP with unequal domain
sizes. -/
def domC9 : Domain :=
  [[Value.Pole1PositivePole2Negative, Value.Pole2PositivePole1Negative,
    Value.Empty], [Value.Empty]]

/-- Witness for C9: on `cspC4` with domains of sizes 3 and 1 and both
dominoes unresolved, the hypotheses hold and the theorem applies; selection
indeed returns domino 1, the one with the smaller domain. -/
theorem C9_mrv_selection_witness :
    (cspC4.vars.length ≠ 0 ∧
      ∀ i, i < cspC4.vars.length → (domC9.getD i []).length < usizeMax) ∧
    cspC4.select_unassigned_variable domC9
      [Value.Unassigned, Value.Unassigned] = some 1 ∧
    (((∀ i, i < cspC4.vars.length →
        getV [Value.Unassigned, Value.Unassigned] i ≠ Value.Unassigned) ↔
      cspC4.select_unassigned_variable domC9
        [Value.Unassigned, Value.Unassigned] = none) ∧
     (∀ k, cspC4.select_unassigned_variable domC9
        [Value.Unassigned, Value.Unassigned] = some k →
      k < cspC4.vars.length ∧
      getV [Value.Unassigned, Value.Unassigned] k = Value.Unassigned ∧
      (∀ j, j < cspC4.vars.length →
        getV [Value.Unassigned, Value.Unassigned] j = Value.Unassigned →
        (domC9.getD k []).length ≤ (domC9.getD j []).length) ∧
      (∀ j, j < k →
        getV [Value.Unassigned, Value.Unassigned] j = Value.Unassigned →
        (domC9.getD k []).length < (domC9.getD j []).length))) :=
  ⟨⟨by decide, by decide⟩, by decide,
    C9_mrv_selection cspC4 domC9 [Value.Unassigned, Value.Unassigned]
      (by decide) (by decide)⟩

theorem getCell_setCell (b : List (List BoardCell)) (r c r' c' : Nat)
    (v : BoardCell) (hr : r < b.length) (hc : c < (b.getD r []).length) :
    getCell (setCell b r c v) r' c' =
      if r = r' ∧ c = c' then v else getCell b r' c' := by
  unfold getCell setCell
  rw [getD_set_eq]
  by_cases h : r = r'
  · subst h
    rw [if_pos ⟨rfl, hr⟩, getD_set_eq]
    by_cases h2 : c = c'
    · subst h2
      rw [if_pos ⟨rfl, hc⟩, if_pos ⟨rfl, rfl⟩]
    · rw [if_neg (by tauto), if_neg (by tauto)]
  · rw [if_neg (by tauto), if_neg (by tauto)]

theorem length_getD_setCell (b : List (List BoardCell)) (r c : Nat)
    (v : BoardCell) (x : Nat) :
    ((setCell b r c v).getD x []).length = (b.getD x []).length := by
  unfold setCell
  rw [getD_set_eq]
  by_cases h : r = x ∧ r < b.length
  · rw [if_pos h, List.length_set, h.1]
  · rw [if_neg h]

theorem length_setCell (b : List (List BoardCell)) (r c : Nat)
    (v : BoardCell) : (setCell b r c v).length = b.length := by
  simp [setCell]

theorem set_getD_self {α : Type} (l : List α) (i : Nat) (d : α)
    (h : i < l.length) : l.set i (l.getD i d) = l := by
  apply List.ext_getElem?
  intro n
  rw [List.getElem?_set]
  by_cases h1 : i = n
  · subst h1
    rw [if_pos rfl, if_pos h, List.getD_eq_getElem?_getD,
      List.getElem?_eq_getElem h]
    rfl
  · rw [if_neg h1]

theorem setCell_cancel (b : List (List BoardCell)) (r c : Nat)
    (w : BoardCell) (hr : r < b.length) (hc : c < (b.getD r []).length)
    (h : getCell b r c = w) : setCell b r c w = b := by
  unfold setCell
  unfold getCell at h
  rw [← h, set_getD_self _ _ _ hc, set_getD_self _ _ _ hr]

theorem setCell_setCell_same (b : List (List BoardCell)) (r c : Nat)
    (v w : BoardCell) (hr : r < b.length) :
    setCell (setCell b r c v) r c w = setCell b r c w := by
  unfold setCell
  rw [getD_set_eq, if_pos ⟨rfl, hr⟩, List.set_set, List.set_set]

theorem setCell_comm (b : List (List BoardCell)) (r c r' c' : Nat)
    (v v' : BoardCell) (hr : r < b.length) (hr' : r' < b.length)
    (hne : ¬(r = r' ∧ c = c')) :
    setCell (setCell b r c v) r' c' v' = setCell (setCell b r' c' v') r c v := by
  by_cases h : r = r'
  · subst h
    have hcc : c ≠ c' := fun hc => hne ⟨rfl, hc⟩
    unfold setCell
    rw [getD_set_eq, if_pos ⟨rfl, hr⟩, getD_set_eq, if_pos ⟨rfl, hr⟩,
      List.set_set, List.set_set, List.set_comm _ _ _ hcc]
  · unfold setCell
    rw [getD_set_eq, if_neg (by tauto), getD_set_eq, if_neg (by tauto),
      List.set_comm _ _ _ h]

theorem getI_bumpI (l : List Int) (i j : Nat) (d : Int) :
    getI (bumpI l i d) j =
      if i = j ∧ i < l.length then getI l i + d else getI l j := by
  unfold bumpI getI
  exact getD_set_eq l i j (getI l i + d) 0

theorem bumpI_bumpI_cancel (l : List Int) (i : Nat) :
    bumpI (bumpI l i 1) i (-1) = l := by
  by_cases h : i < l.length
  · show (l.set i (getI l i + 1)).set i (getI (l.set i (getI l i + 1)) i + -1) = l
    have hg : getI (l.set i (getI l i + 1)) i = getI l i + 1 := by
      unfold getI
      rw [getD_set_eq, if_pos ⟨rfl, h⟩]
    rw [hg, List.set_set,
      (by omega : getI l i + 1 + -1 = getI l i)]
    exact set_getD_self l i 0 h
  · have hle : l.length ≤ i := Nat.le_of_not_lt h
    show (l.set i _).set i _ = l
    rw [List.set_eq_of_length_le hle, List.set_eq_of_length_le hle]

theorem getCell_setCell2 (b : List (List BoardCell)) (r0 c0 r1 c1 : Nat)
    (v0 v1 : BoardCell) (r c : Nat)
    (hr0 : r0 < b.length) (hc0 : c0 < (b.getD r0 []).length)
    (hr1 : r1 < b.length) (hc1 : c1 < (b.getD r1 []).length) :
    getCell (setCell (setCell b r0 c0 v0) r1 c1 v1) r c =
      if r1 = r ∧ c1 = c then v1
      else if r0 = r ∧ c0 = c then v0
      else getCell b r c := by
  rw [getCell_setCell _ _ _ _ _ _ (by rw [length_setCell]; exact hr1)
    (by rw [length_getD_setCell]; exact hc1)]
  by_cases h : r1 = r ∧ c1 = c
  · rw [if_pos h, if_pos h]
  · rw [if_neg h, if_neg h, getCell_setCell _ _ _ _ _ _ hr0 hc0]

theorem getI_bumpI_one (l : List Int) (k : Nat) (hk : k < l.length) (i : Nat) :
    getI (bumpI l k 1) i = getI l i + if i = k then 1 else 0 := by
  rw [getI_bumpI]
  by_cases h : i = k
  · subst h
    rw [if_pos ⟨rfl, hk⟩, if_pos rfl]
  · rw [if_neg (by tauto), if_neg h, add_zero]

/-- The corrected `assign` contract (amended claim C6): polarity orientations
fail without any state change when a target cell is not `Unmarked` and on
success write the two marks and bump the four affected counters by exactly
one; the `Vacant` orientation always applies, writes `Empty` to both cells,
and never touches a counter. -/
def C6SpecContract (csp : CSP) (var_index : Nat) (assignment : Assignment)
    (p0 p1 : Point) : Prop :=
  ((getCell csp.board p0.row p0.col ≠ BoardCell.Unassigned ∨
    getCell csp.board p1.row p1.col ≠ BoardCell.Unassigned) →
    csp.assign Value.Pole1PositivePole2Negative var_index assignment =
      (false, csp, assignment) ∧
    csp.assign Value.Pole2PositivePole1Negative var_index assignment =
      (false, csp, assignment)) ∧
  (getCell csp.board p0.row p0.col = BoardCell.Unassigned →
   getCell csp.board p1.row p1.col = BoardCell.Unassigned →
    ((csp.assign Value.Pole1PositivePole2Negative var_index assignment).1 =
      true ∧
     (∀ r c, getCell (csp.assign Value.Pole1PositivePole2Negative var_index
        assignment).2.1.board r c =
       if p1.row = r ∧ p1.col = c then BoardCell.Negative
       else if p0.row = r ∧ p0.col = c then BoardCell.Positive
       else getCell csp.board r c) ∧
     (∀ i, getI (csp.assign Value.Pole1PositivePole2Negative var_index
        assignment).2.1.curr_row_pos_poles i =
       getI csp.curr_row_pos_poles i + if i = p0.row then 1 else 0) ∧
     (∀ i, getI (csp.assign Value.Pole1PositivePole2Negative var_index
        assignment).2.1.curr_row_neg_poles i =
       getI csp.curr_row_neg_poles i + if i = p1.row then 1 else 0) ∧
     (∀ i, getI (csp.assign Value.Pole1PositivePole2Negative var_index
        assignment).2.1.curr_col_pos_poles i =
       getI csp.curr_col_pos_poles i + if i = p0.col then 1 else 0) ∧
     (∀ i, getI (csp.assign Value.Pole1PositivePole2Negative var_index
        assignment).2.1.curr_col_neg_poles i =
       getI csp.curr_col_neg_poles i + if i = p1.col then 1 else 0)) ∧
    ((csp.assign Value.Pole2PositivePole1Negative var_index assignment).1 =
      true ∧
     (∀ r c, getCell (csp.assign Value.Pole2PositivePole1Negative var_index
        assignment).2.1.board r c =
       if p1.row = r ∧ p1.col = c then BoardCell.Positive
       else if p0.row = r ∧ p0.col = c then BoardCell.Negative
       else getCell csp.board r c) ∧
     (∀ i, getI (csp.assign Value.Pole2PositivePole1Negative var_index
        assignment).2.1.curr_row_pos_poles i =
       getI csp.curr_row_pos_poles i + if i = p1.row then 1 else 0) ∧
     (∀ i, getI (csp.assign Value.Pole2PositivePole1Negative var_index
        assignment).2.1.curr_row_neg_poles i =
       getI csp.curr_row_neg_poles i + if i = p0.row then 1 else 0) ∧
     (∀ i, getI (csp.assign Value.Pole2PositivePole1Negative var_index
        assignment).2.1.curr_col_pos_poles i =
       getI csp.curr_col_pos_poles i + if i = p1.col then 1 else 0) ∧
     (∀ i, getI (csp.assign Value.Pole2PositivePole1Negative var_index
        assignment).2.1.curr_col_neg_poles i =
       getI csp.curr_col_neg_poles i + if i = p0.col then 1 else 0))) ∧
  ((csp.assign Value.Empty var_index assignment).1 = true ∧
   (∀ r c, getCell (csp.assign Value.Empty var_index
      assignment).2.1.board r c =
     if (p1.row = r ∧ p1.col = c) ∨ (p0.row = r ∧ p0.col = c) then
       BoardCell.Empty
     else getCell csp.board r c) ∧
   (csp.assign Value.Empty var_index assignment).2.1.curr_row_pos_poles =
     csp.curr_row_pos_poles ∧
   (csp.assign Value.Empty var_index assignment).2.1.curr_row_neg_poles =
     csp.curr_row_neg_poles ∧
   (csp.assign Value.Empty var_index assignment).2.1.curr_col_pos_poles =
     csp.curr_col_pos_poles ∧
   (csp.assign Value.Empty var_index assignment).2.1.curr_col_neg_poles =
     csp.curr_col_neg_poles)

/-- C6: the amended assign contract holds for every domino with in-bounds
poles. -/
theorem C6_assign_contract (csp : CSP) (var_index : Nat)
    (assignment : Assignment) (p0 p1 : Point)
    (hv : (csp.vars.getD var_index dummyVar).poles = [p0, p1])
    (hr0 : p0.row < csp.board.length)
    (hc0 : p0.col < (csp.board.getD p0.row []).length)
    (hr1 : p1.row < csp.board.length)
    (hc1 : p1.col < (csp.board.getD p1.row []).length)
    (hrow : p0.row < csp.curr_row_pos_poles.length ∧
      p1.row < csp.curr_row_pos_poles.length ∧
      p0.row < csp.curr_row_neg_poles.length ∧
      p1.row < csp.curr_row_neg_poles.length)
    (hcol : p0.col < csp.curr_col_pos_poles.length ∧
      p1.col < csp.curr_col_pos_poles.length ∧
      p0.col < csp.curr_col_neg_poles.length ∧
      p1.col < csp.curr_col_neg_poles.length) :
    C6SpecContract csp var_index assignment p0 p1 := by
  have hp0 : (csp.vars.getD var_index dummyVar).poles.getD 0 dummyPoint = p0 := by
    rw [hv]; simp
  have hp1 : (csp.vars.getD var_index dummyVar).poles.getD 1 dummyPoint = p1 := by
    rw [hv]; simp
  refine ⟨?_, ?_, ?_⟩
  · intro hbad
    have hcond : ¬(getCell csp.board p0.row p0.col = BoardCell.Unassigned ∧
        getCell csp.board p1.row p1.col = BoardCell.Unassigned) := by tauto
    constructor
    · show (if getCell csp.board
          ((csp.vars.getD var_index dummyVar).poles.getD 0 dummyPoint).row
          ((csp.vars.getD var_index dummyVar).poles.getD 0 dummyPoint).col =
            BoardCell.Unassigned ∧
          getCell csp.board
          ((csp.vars.getD var_index dummyVar).poles.getD 1 dummyPoint).row
          ((csp.vars.getD var_index dummyVar).poles.getD 1 dummyPoint).col =
            BoardCell.Unassigned then _ else
          (false, csp, assignment)) = (false, csp, assignment)
      rw [hp0, hp1, if_neg hcond]
    · show (if getCell csp.board
          ((csp.vars.getD var_index dummyVar).poles.getD 0 dummyPoint).row
          ((csp.vars.getD var_index dummyVar).poles.getD 0 dummyPoint).col =
            BoardCell.Unassigned ∧
          getCell csp.board
          ((csp.vars.getD var_index dummyVar).poles.getD 1 dummyPoint).row
          ((csp.vars.getD var_index dummyVar).poles.getD 1 dummyPoint).col =
            BoardCell.Unassigned then _ else
          (false, csp, assignment)) = (false, csp, assignment)
      rw [hp0, hp1, if_neg hcond]
  · intro h0 h1
    have hcond : getCell csp.board
        ((csp.vars.getD var_index dummyVar).poles.getD 0 dummyPoint).row
        ((csp.vars.getD var_index dummyVar).poles.getD 0 dummyPoint).col =
          BoardCell.Unassigned ∧
        getCell csp.board
        ((csp.vars.getD var_index dummyVar).poles.getD 1 dummyPoint).row
        ((csp.vars.getD var_index dummyVar).poles.getD 1 dummyPoint).col =
          BoardCell.Unassigned := by
      rw [hp0, hp1]
      exact ⟨h0, h1⟩
    have hF : csp.assign Value.Pole1PositivePole2Negative var_index assignment =
        (true,
         { csp with
           board := setCell (setCell csp.board p0.row p0.col BoardCell.Positive)
             p1.row p1.col BoardCell.Negative
           curr_row_pos_poles := bumpI csp.curr_row_pos_poles p0.row 1
           curr_col_pos_poles := bumpI csp.curr_col_pos_poles p0.col 1
           curr_row_neg_poles := bumpI csp.curr_row_neg_poles p1.row 1
           curr_col_neg_poles := bumpI csp.curr_col_neg_poles p1.col 1 },
         assignment.set var_index Value.Pole1PositivePole2Negative) := by
      show (if _ ∧ _ then _ else _) = _
      rw [if_pos hcond, hp0, hp1]
    have hR : csp.assign Value.Pole2PositivePole1Negative var_index assignment =
        (true,
         { csp with
           board := setCell (setCell csp.board p0.row p0.col BoardCell.Negative)
             p1.row p1.col BoardCell.Positive
           curr_row_neg_poles := bumpI csp.curr_row_neg_poles p0.row 1
           curr_col_neg_poles := bumpI csp.curr_col_neg_poles p0.col 1
           curr_row_pos_poles := bumpI csp.curr_row_pos_poles p1.row 1
           curr_col_pos_poles := bumpI csp.curr_col_pos_poles p1.col 1 },
         assignment.set var_index Value.Pole2PositivePole1Negative) := by
      show (if _ ∧ _ then _ else _) = _
      rw [if_pos hcond, hp0, hp1]
    constructor
    · rw [hF]
      refine ⟨rfl, ?_, ?_, ?_, ?_, ?_⟩
      · intro r c
        exact getCell_setCell2 csp.board p0.row p0.col p1.row p1.col
          BoardCell.Positive BoardCell.Negative r c hr0 hc0 hr1 hc1
      · exact getI_bumpI_one csp.curr_row_pos_poles p0.row hrow.1
      · exact getI_bumpI_one csp.curr_row_neg_poles p1.row hrow.2.2.2
      · exact getI_bumpI_one csp.curr_col_pos_poles p0.col hcol.1
      · exact getI_bumpI_one csp.curr_col_neg_poles p1.col hcol.2.2.2
    · rw [hR]
      refine ⟨rfl, ?_, ?_, ?_, ?_, ?_⟩
      · intro r c
        exact getCell_setCell2 csp.board p0.row p0.col p1.row p1.col
          BoardCell.Negative BoardCell.Positive r c hr0 hc0 hr1 hc1
      · exact getI_bumpI_one csp.curr_row_pos_poles p1.row hrow.2.1
      · exact getI_bumpI_one csp.curr_row_neg_poles p0.row hrow.2.2.1
      · exact getI_bumpI_one csp.curr_col_pos_poles p1.col hcol.2.1
      · exact getI_bumpI_one csp.curr_col_neg_poles p0.col hcol.2.2.1
  · have hE : csp.assign Value.Empty var_index assignment =
        (true,
         { csp with
           board := setCell (setCell csp.board p0.row p0.col BoardCell.Empty)
             p1.row p1.col BoardCell.Empty },
         assignment.set var_index Value.Empty) := by
      show (true, _, _) = _
      rw [hp0, hp1]
    rw [hE]
    refine ⟨rfl, ?_, rfl, rfl, rfl, rfl⟩
    intro r c
    rw [getCell_setCell2 csp.board p0.row p0.col p1.row p1.col
      BoardCell.Empty BoardCell.Empty r c hr0 hc0 hr1 hc1]
    by_cases ha : p1.row = r ∧ p1.col = c
    · rw [if_pos ha, if_pos (Or.inl ha)]
    · rw [if_neg ha]
      by_cases hb : p0.row = r ∧ p0.col = c
      · rw [if_pos hb, if_pos (Or.inr hb)]
      · rw [if_neg hb, if_neg (by tauto)]

/-- A 1-by-2 grid with a single horizontal domino. -/
def cspC6 : CSP := CSP.new 1 2 [1] [1] [1, 0] [0, 1] [[0, 2]] InferenceMode.FC

/-- `cspC6` after assigning `ForwardPolarity` to its domino: both cells are
marked (`Positive`, `Negative`). -/
def c6afterF : CSP :=
  (cspC6.assign Value.Pole1PositivePole2Negative 0 [Value.Unassigned]).2.1

/-- C6 counterexample: in `c6afterF` the first target cell is `Positive`
(not `Unmarked`), yet `assign Vacant` reports applied and rewrites the grid —
and, although it succeeded, it leaves all four counter arrays unchanged
instead of incrementing them; both refute the claim as stated for the
`Vacant` orientation. -/
theorem C6_counterexample :
    getCell c6afterF.board 0 0 = BoardCell.Positive ∧
    (c6afterF.assign Value.Empty 0
      [Value.Pole1PositivePole2Negative]).1 = true ∧
    (c6afterF.assign Value.Empty 0
      [Value.Pole1PositivePole2Negative]).2.1.board ≠ c6afterF.board ∧
    (c6afterF.assign Value.Empty 0
      [Value.Pole1PositivePole2Negative]).2.1.curr_row_pos_poles =
      c6afterF.curr_row_pos_poles ∧
    (c6afterF.assign Value.Empty 0
      [Value.Pole1PositivePole2Negative]).2.1.curr_row_neg_poles =
      c6afterF.curr_row_neg_poles ∧
    (c6afterF.assign Value.Empty 0
      [Value.Pole1PositivePole2Negative]).2.1.curr_col_pos_poles =
      c6afterF.curr_col_pos_poles ∧
    (c6afterF.assign Value.Empty 0
      [Value.Pole1PositivePole2Negative]).2.1.curr_col_neg_poles =
      c6afterF.curr_col_neg_poles :=
  ⟨rfl, rfl, by decide, rfl, rfl, rfl, rfl⟩

/-- Witness for C6 on the concrete 1-by-2 instance. -/
theorem C6_assign_contract_witness :
    ((cspC6.vars.getD 0 dummyVar).poles = [⟨0, 0⟩, ⟨0, 1⟩] ∧
     (0 : Nat) < cspC6.board.length ∧
     (0 : Nat) < (cspC6.board.getD 0 []).length ∧
     (1 : Nat) < (cspC6.board.getD 0 []).length ∧
     (0 : Nat) < cspC6.curr_row_pos_poles.length ∧
     (0 : Nat) < cspC6.curr_col_pos_poles.length ∧
     (1 : Nat) < cspC6.curr_col_neg_poles.length) ∧
    C6SpecContract cspC6 0 [Value.Unassigned] ⟨0, 0⟩ ⟨0, 1⟩ :=
  ⟨⟨by decide, by decide, by decide, by decide, by decide, by decide,
    by decide⟩,
   C6_assign_contract cspC6 0 [Value.Unassigned] ⟨0, 0⟩ ⟨0, 1⟩ (by decide)
     (by decide) (by decide) (by decide) (by decide)
     ⟨by decide, by decide, by decide, by decide⟩
     ⟨by decide, by decide, by decide, by decide⟩⟩

theorem assign_F_applied (csp : CSP) (var_index : Nat)
    (assignment : Assignment) (p0 p1 : Point)
    (hv : (csp.vars.getD var_index dummyVar).poles = [p0, p1])
    (h0 : getCell csp.board p0.row p0.col = BoardCell.Unassigned)
    (h1 : getCell csp.board p1.row p1.col = BoardCell.Unassigned) :
    csp.assign Value.Pole1PositivePole2Negative var_index assignment =
      (true,
       { csp with
         board := setCell (setCell csp.board p0.row p0.col BoardCell.Positive)
           p1.row p1.col BoardCell.Negative
         curr_row_pos_poles := bumpI csp.curr_row_pos_poles p0.row 1
         curr_col_pos_poles := bumpI csp.curr_col_pos_poles p0.col 1
         curr_row_neg_poles := bumpI csp.curr_row_neg_poles p1.row 1
         curr_col_neg_poles := bumpI csp.curr_col_neg_poles p1.col 1 },
       assignment.set var_index Value.Pole1PositivePole2Negative) := by
  have hp0 : (csp.vars.getD var_index dummyVar).poles.getD 0 dummyPoint = p0 := by
    rw [hv]; simp
  have hp1 : (csp.vars.getD var_index dummyVar).poles.getD 1 dummyPoint = p1 := by
    rw [hv]; simp
  show (if _ ∧ _ then _ else _) = _
  rw [hp0, hp1, if_pos ⟨h0, h1⟩]

theorem assign_R_applied (csp : CSP) (var_index : Nat)
    (assignment : Assignment) (p0 p1 : Point)
    (hv : (csp.vars.getD var_index dummyVar).poles = [p0, p1])
    (h0 : getCell csp.board p0.row p0.col = BoardCell.Unassigned)
    (h1 : getCell csp.board p1.row p1.col = BoardCell.Unassigned) :
    csp.assign Value.Pole2PositivePole1Negative var_index assignment =
      (true,
       { csp with
         board := setCell (setCell csp.board p0.row p0.col BoardCell.Negative)
           p1.row p1.col BoardCell.Positive
         curr_row_neg_poles := bumpI csp.curr_row_neg_poles p0.row 1
         curr_col_neg_poles := bumpI csp.curr_col_neg_poles p0.col 1
         curr_row_pos_poles := bumpI csp.curr_row_pos_poles p1.row 1
         curr_col_pos_poles := bumpI csp.curr_col_pos_poles p1.col 1 },
       assignment.set var_index Value.Pole2PositivePole1Negative) := by
  have hp0 : (csp.vars.getD var_index dummyVar).poles.getD 0 dummyPoint = p0 := by
    rw [hv]; simp
  have hp1 : (csp.vars.getD var_index dummyVar).poles.getD 1 dummyPoint = p1 := by
    rw [hv]; simp
  show (if _ ∧ _ then _ else _) = _
  rw [hp0, hp1, if_pos ⟨h0, h1⟩]

theorem assign_E_eq (csp : CSP) (var_index : Nat) (assignment : Assignment)
    (p0 p1 : Point)
    (hv : (csp.vars.getD var_index dummyVar).poles = [p0, p1]) :
    csp.assign Value.Empty var_index assignment =
      (true,
       { csp with
         board := setCell (setCell csp.board p0.row p0.col BoardCell.Empty)
           p1.row p1.col BoardCell.Empty },
       assignment.set var_index Value.Empty) := by
  have hp0 : (csp.vars.getD var_index dummyVar).poles.getD 0 dummyPoint = p0 := by
    rw [hv]; simp
  have hp1 : (csp.vars.getD var_index dummyVar).poles.getD 1 dummyPoint = p1 := by
    rw [hv]; simp
  show (true, _, _) = _
  rw [hp0, hp1]

theorem unassign_F_reduce (csp : CSP) (vi : Nat) (asg : Assignment) :
    csp.unassign Value.Pole1PositivePole2Negative vi asg =
      ({ csp with
         board := setCell (setCell csp.board
             ((csp.vars.getD vi dummyVar).poles.getD 0 dummyPoint).row
             ((csp.vars.getD vi dummyVar).poles.getD 0 dummyPoint).col
             BoardCell.Unassigned)
           ((csp.vars.getD vi dummyVar).poles.getD 1 dummyPoint).row
           ((csp.vars.getD vi dummyVar).poles.getD 1 dummyPoint).col
           BoardCell.Unassigned
         curr_row_pos_poles := bumpI csp.curr_row_pos_poles
           ((csp.vars.getD vi dummyVar).poles.getD 0 dummyPoint).row (-1)
         curr_col_pos_poles := bumpI csp.curr_col_pos_poles
           ((csp.vars.getD vi dummyVar).poles.getD 0 dummyPoint).col (-1)
         curr_row_neg_poles := bumpI csp.curr_row_neg_poles
           ((csp.vars.getD vi dummyVar).poles.getD 1 dummyPoint).row (-1)
         curr_col_neg_poles := bumpI csp.curr_col_neg_poles
           ((csp.vars.getD vi dummyVar).poles.getD 1 dummyPoint).col (-1) },
       asg.set vi Value.Unassigned) := rfl

theorem unassign_R_reduce (csp : CSP) (vi : Nat) (asg : Assignment) :
    csp.unassign Value.Pole2PositivePole1Negative vi asg =
      ({ csp with
         board := setCell (setCell csp.board
             ((csp.vars.getD vi dummyVar).poles.getD 0 dummyPoint).row
             ((csp.vars.getD vi dummyVar).poles.getD 0 dummyPoint).col
             BoardCell.Unassigned)
           ((csp.vars.getD vi dummyVar).poles.getD 1 dummyPoint).row
           ((csp.vars.getD vi dummyVar).poles.getD 1 dummyPoint).col
           BoardCell.Unassigned
         curr_row_neg_poles := bumpI csp.curr_row_neg_poles
           ((csp.vars.getD vi dummyVar).poles.getD 0 dummyPoint).row (-1)
         curr_col_neg_poles := bumpI csp.curr_col_neg_poles
           ((csp.vars.getD vi dummyVar).poles.getD 0 dummyPoint).col (-1)
         curr_row_pos_poles := bumpI csp.curr_row_pos_poles
           ((csp.vars.getD vi dummyVar).poles.getD 1 dummyPoint).row (-1)
         curr_col_pos_poles := bumpI csp.curr_col_pos_poles
           ((csp.vars.getD vi dummyVar).poles.getD 1 dummyPoint).col (-1) },
       asg.set vi Value.Unassigned) := rfl

theorem unassign_E_reduce (csp : CSP) (vi : Nat) (asg : Assignment) :
    csp.unassign Value.Empty vi asg =
      ({ csp with
         board := setCell (setCell csp.board
             ((csp.vars.getD vi dummyVar).poles.getD 0 dummyPoint).row
             ((csp.vars.getD vi dummyVar).poles.getD 0 dummyPoint).col
             BoardCell.Unassigned)
           ((csp.vars.getD vi dummyVar).poles.getD 1 dummyPoint).row
           ((csp.vars.getD vi dummyVar).poles.getD 1 dummyPoint).col
           BoardCell.Unassigned },
       asg.set vi Value.Unassigned) := rfl

theorem unassign_U_reduce (csp : CSP) (vi : Nat) (asg : Assignment) :
    csp.unassign Value.Unassigned vi asg =
      ({ csp with
         board := setCell (setCell csp.board
             ((csp.vars.getD vi dummyVar).poles.getD 0 dummyPoint).row
             ((csp.vars.getD vi dummyVar).poles.getD 0 dummyPoint).col
             BoardCell.Unassigned)
           ((csp.vars.getD vi dummyVar).poles.getD 1 dummyPoint).row
           ((csp.vars.getD vi dummyVar).poles.getD 1 dummyPoint).col
           BoardCell.Unassigned },
       asg.set vi Value.Unassigned) := rfl

theorem board_mark_unmark (b : List (List BoardCell)) (p0 p1 : Point)
    (m0 m1 : BoardCell)
    (hr0 : p0.row < b.length) (hc0 : p0.col < (b.getD p0.row []).length)
    (hr1 : p1.row < b.length) (hc1 : p1.col < (b.getD p1.row []).length)
    (h0 : getCell b p0.row p0.col = BoardCell.Unassigned)
    (h1 : getCell b p1.row p1.col = BoardCell.Unassigned) :
    setCell (setCell (setCell (setCell b p0.row p0.col m0) p1.row p1.col m1)
      p0.row p0.col BoardCell.Unassigned) p1.row p1.col BoardCell.Unassigned
      = b := by
  by_cases heq : p1.row = p0.row ∧ p1.col = p0.col
  · obtain ⟨ha, hb⟩ := heq
    rw [ha, hb]
    rw [setCell_setCell_same b _ _ m0 m1 hr0]
    rw [setCell_setCell_same b _ _ m1 BoardCell.Unassigned hr0]
    rw [setCell_setCell_same b _ _ BoardCell.Unassigned BoardCell.Unassigned
      hr0]
    exact setCell_cancel b _ _ _ hr0 hc0 h0
  · rw [setCell_comm (setCell b p0.row p0.col m0) p1.row p1.col p0.row p0.col
      m1 BoardCell.Unassigned (by rw [length_setCell]; exact hr1)
      (by rw [length_setCell]; exact hr0) heq]
    rw [setCell_setCell_same b p0.row p0.col m0 BoardCell.Unassigned hr0]
    rw [setCell_setCell_same (setCell b p0.row p0.col BoardCell.Unassigned)
      p1.row p1.col m1 BoardCell.Unassigned (by rw [length_setCell]; exact hr1)]
    rw [setCell_cancel (setCell b p0.row p0.col BoardCell.Unassigned)
      p1.row p1.col BoardCell.Unassigned
      (by rw [length_setCell]; exact hr1)
      (by rw [length_getD_setCell]; exact hc1)
      (by rw [getCell_setCell _ _ _ _ _ _ hr0 hc0, if_neg (by tauto)]
          exact h1)]
    exact setCell_cancel b p0.row p0.col BoardCell.Unassigned hr0 hc0 h0

/-- C7 (amended): if both target cells are `Unmarked`, then for every legal
orientation (`ForwardPolarity`, `ReversePolarity`, `Vacant`) the assignment
applies, and immediately unassigning with the same orientation restores the
grid and all four counter arrays exactly. -/
theorem C7_rollback (csp : CSP) (var_index : Nat) (assignment : Assignment)
    (value : Value) (p0 p1 : Point)
    (hv : (csp.vars.getD var_index dummyVar).poles = [p0, p1])
    (hval : value ≠ Value.Unassigned)
    (h0 : getCell csp.board p0.row p0.col = BoardCell.Unassigned)
    (h1 : getCell csp.board p1.row p1.col = BoardCell.Unassigned)
    (hr0 : p0.row < csp.board.length)
    (hc0 : p0.col < (csp.board.getD p0.row []).length)
    (hr1 : p1.row < csp.board.length)
    (hc1 : p1.col < (csp.board.getD p1.row []).length) :
    (csp.assign value var_index assignment).1 = true ∧
    ((csp.assign value var_index assignment).2.1.unassign value var_index
      (csp.assign value var_index assignment).2.2).1.board = csp.board ∧
    ((csp.assign value var_index assignment).2.1.unassign value var_index
      (csp.assign value var_index assignment).2.2).1.curr_row_pos_poles =
      csp.curr_row_pos_poles ∧
    ((csp.assign value var_index assignment).2.1.unassign value var_index
      (csp.assign value var_index assignment).2.2).1.curr_row_neg_poles =
      csp.curr_row_neg_poles ∧
    ((csp.assign value var_index assignment).2.1.unassign value var_index
      (csp.assign value var_index assignment).2.2).1.curr_col_pos_poles =
      csp.curr_col_pos_poles ∧
    ((csp.assign value var_index assignment).2.1.unassign value var_index
      (csp.assign value var_index assignment).2.2).1.curr_col_neg_poles =
      csp.curr_col_neg_poles := by
  have hp0 : (csp.vars.getD var_index dummyVar).poles.getD 0 dummyPoint = p0 := by
    rw [hv]; simp
  have hp1 : (csp.vars.getD var_index dummyVar).poles.getD 1 dummyPoint = p1 := by
    rw [hv]; simp
  cases value with
  | Pole1PositivePole2Negative =>
    rw [assign_F_applied csp var_index assignment p0 p1 hv h0 h1]
    dsimp only
    rw [unassign_F_reduce]
    dsimp only
    rw [hp0, hp1]
    exact ⟨rfl,
      board_mark_unmark csp.board p0 p1 BoardCell.Positive BoardCell.Negative
        hr0 hc0 hr1 hc1 h0 h1,
      bumpI_bumpI_cancel _ _, bumpI_bumpI_cancel _ _,
      bumpI_bumpI_cancel _ _, bumpI_bumpI_cancel _ _⟩
  | Pole2PositivePole1Negative =>
    rw [assign_R_applied csp var_index assignment p0 p1 hv h0 h1]
    dsimp only
    rw [unassign_R_reduce]
    dsimp only
    rw [hp0, hp1]
    exact ⟨rfl,
      board_mark_unmark csp.board p0 p1 BoardCell.Negative BoardCell.Positive
        hr0 hc0 hr1 hc1 h0 h1,
      bumpI_bumpI_cancel _ _, bumpI_bumpI_cancel _ _,
      bumpI_bumpI_cancel _ _, bumpI_bumpI_cancel _ _⟩
  | Empty =>
    rw [assign_E_eq csp var_index assignment p0 p1 hv]
    dsimp only
    rw [unassign_E_reduce]
    dsimp only
    rw [hp0, hp1]
    exact ⟨rfl,
      board_mark_unmark csp.board p0 p1 BoardCell.Empty BoardCell.Empty
        hr0 hc0 hr1 hc1 h0 h1, rfl, rfl, rfl, rfl⟩
  | Unassigned => exact absurd rfl hval

/-- C7 counterexample: in `c6afterF` (both cells marked `Positive`/`Negative`)
the `Vacant` assignment still reports success, and assigning `Vacant` then
immediately unassigning `Vacant` leaves the grid all-`Unmarked` instead of
restoring the pre-assignment marks: the claim fails as stated for a
successful assignment onto non-`Unmarked` cells. -/
theorem C7_counterexample :
    (c6afterF.assign Value.Empty 0 [Value.Pole1PositivePole2Negative]).1 =
      true ∧
    ((c6afterF.assign Value.Empty 0
        [Value.Pole1PositivePole2Negative]).2.1.unassign Value.Empty 0
      (c6afterF.assign Value.Empty 0
        [Value.Pole1PositivePole2Negative]).2.2).1.board ≠ c6afterF.board :=
  ⟨rfl, by decide⟩

/-- Witness for C7 on the concrete 1-by-2 instance with `ForwardPolarity`. -/
theorem C7_rollback_witness :
    ((cspC6.vars.getD 0 dummyVar).poles = [⟨0, 0⟩, ⟨0, 1⟩] ∧
     Value.Pole1PositivePole2Negative ≠ Value.Unassigned ∧
     getCell cspC6.board 0 0 = BoardCell.Unassigned ∧
     getCell cspC6.board 0 1 = BoardCell.Unassigned) ∧
    (cspC6.assign Value.Pole1PositivePole2Negative 0 [Value.Unassigned]).1 =
      true ∧
    ((cspC6.assign Value.Pole1PositivePole2Negative 0
        [Value.Unassigned]).2.1.unassign Value.Pole1PositivePole2Negative 0
      (cspC6.assign Value.Pole1PositivePole2Negative 0
        [Value.Unassigned]).2.2).1.board = cspC6.board :=
  ⟨⟨by decide, by decide, by decide, by decide⟩,
   (C7_rollback cspC6 0 [Value.Unassigned] Value.Pole1PositivePole2Negative
     ⟨0, 0⟩ ⟨0, 1⟩ (by decide) (by decide) (by decide) (by decide) (by decide)
     (by decide) (by decide) (by decide)).1,
   (C7_rollback cspC6 0 [Value.Unassigned] Value.Pole1PositivePole2Negative
     ⟨0, 0⟩ ⟨0, 1⟩ (by decide) (by decide) (by decide) (by decide) (by decide)
     (by decide) (by decide) (by decide)).2.1⟩

theorem count_set_int (l : List BoardCell) (i : Nat) (v m : BoardCell)
    (h : i < l.length) :
    ((l.set i v).count m : Int) +
        (if l.getD i BoardCell.Unassigned = m then 1 else 0) =
      (l.count m : Int) + (if v = m then 1 else 0) := by
  have hget : l.getD i BoardCell.Unassigned = l[i] := List.getD_eq_getElem l _ h
  have hcs := List.count_set v m l i h
  simp only [beq_iff_eq] at hcs
  rw [hget]
  by_cases h1 : l[i] = m
  · have hc1 : 1 ≤ l.count m :=
      List.one_le_count_iff.mpr (h1 ▸ List.getElem_mem h)
    rw [if_pos h1] at hcs
    rw [if_pos h1]
    by_cases h2 : v = m
    · rw [if_pos h2] at hcs
      rw [if_pos h2]
      omega
    · rw [if_neg h2] at hcs
      rw [if_neg h2]
      omega
  · rw [if_neg h1] at hcs
    rw [if_neg h1]
    by_cases h2 : v = m
    · rw [if_pos h2] at hcs
      rw [if_pos h2]
      omega
    · rw [if_neg h2] at hcs
      rw [if_neg h2]
      omega

theorem rowCount_setCell (b : List (List BoardCell)) (x c : Nat)
    (v : BoardCell) (r : Nat) (m : BoardCell)
    (hx : x < b.length) (hc : c < (b.getD x []).length) :
    (rowCount (setCell b x c v) r m : Int) =
      (rowCount b r m : Int) +
        (if x = r then
          (if v = m then 1 else 0) -
            (if getCell b x c = m then 1 else 0)
         else 0) := by
  unfold rowCount setCell getCell
  rw [getD_set_eq]
  by_cases h : x = r
  · rw [if_pos ⟨h, hx⟩, if_pos h]
    subst h
    have := count_set_int (b.getD x []) c v m hc
    omega
  · rw [if_neg (by tauto), if_neg h]
    omega

theorem colCells_getD (b : List (List BoardCell)) (R c x : Nat) (hx : x < R) :
    (colCells b R c).getD x BoardCell.Unassigned = getCell b x c := by
  unfold colCells
  rw [List.getD_eq_getElem?_getD, List.getElem?_map, List.getElem?_range hx]
  rfl

theorem length_colCells (b : List (List BoardCell)) (R c : Nat) :
    (colCells b R c).length = R := by
  unfold colCells
  rw [List.length_map, List.length_range]

theorem colCells_setCell (b : List (List BoardCell)) (R x c : Nat)
    (v : BoardCell) (c' : Nat)
    (hx : x < b.length) (hc : c < (b.getD x []).length) :
    colCells (setCell b x c v) R c' =
      if c = c' then (colCells b R c').set x v else colCells b R c' := by
  by_cases hcc : c = c'
  · subst hcc
    rw [if_pos rfl]
    apply List.ext_getElem?
    intro n
    show (List.map (fun i => getCell (setCell b x c v) i c)
        (List.range R))[n]? =
      ((List.map (fun i => getCell b i c) (List.range R)).set x v)[n]?
    rw [List.getElem?_set, List.getElem?_map, List.getElem?_map]
    by_cases hn : n < R
    · rw [List.getElem?_range hn]
      by_cases hxn : x = n
      · subst hxn
        rw [if_pos rfl,
          if_pos (by rw [List.length_map, List.length_range]; exact hn)]
        show some (getCell (setCell b x c v) x c) = some v
        rw [getCell_setCell _ _ _ _ _ _ hx hc, if_pos ⟨rfl, rfl⟩]
      · rw [if_neg hxn]
        show some (getCell (setCell b x c v) n c) = some (getCell b n c)
        rw [getCell_setCell _ _ _ _ _ _ hx hc, if_neg (by tauto)]
    · have hnone : (List.range R)[n]? = none :=
        List.getElem?_eq_none (by rw [List.length_range]; omega)
      rw [hnone]
      by_cases hxn : x = n
      · subst hxn
        rw [if_pos rfl,
          if_neg (by rw [List.length_map, List.length_range]; omega)]
        rfl
      · rw [if_neg hxn]
        rfl
  · rw [if_neg hcc]
    unfold colCells
    apply List.map_congr_left
    intro i _
    rw [getCell_setCell _ _ _ _ _ _ hx hc, if_neg (by tauto)]

theorem colCount_setCell (b : List (List BoardCell)) (R x c : Nat)
    (v : BoardCell) (c' : Nat) (m : BoardCell)
    (hx : x < b.length) (hc : c < (b.getD x []).length) (hxR : x < R) :
    (colCount (setCell b x c v) R c' m : Int) =
      (colCount b R c' m : Int) +
        (if c = c' then
          (if v = m then 1 else 0) -
            (if getCell b x c = m then 1 else 0)
         else 0) := by
  unfold colCount
  rw [colCells_setCell b R x c v c' hx hc]
  by_cases hcc : c = c'
  · rw [if_pos hcc, if_pos hcc]
    subst hcc
    have hxlen : x < (colCells b R c).length := by
      rw [length_colCells]
      exact hxR
    have := count_set_int (colCells b R c) x v m hxlen
    rw [colCells_getD b R c x hxR] at this
    omega
  · rw [if_neg hcc, if_neg hcc]
    omega

theorem rowCount_setCell2 (b : List (List BoardCell)) (p0 p1 : Point)
    (m0 m1 : BoardCell)
    (hr0 : p0.row < b.length) (hc0 : p0.col < (b.getD p0.row []).length)
    (hr1 : p1.row < b.length) (hc1 : p1.col < (b.getD p1.row []).length)
    (hnc : ¬(p0.row = p1.row ∧ p0.col = p1.col)) (r : Nat) (m : BoardCell) :
    (rowCount (setCell (setCell b p0.row p0.col m0) p1.row p1.col m1)
        r m : Int) =
      (rowCount b r m : Int) +
        (if p0.row = r then
          (if m0 = m then 1 else 0) -
            (if getCell b p0.row p0.col = m then 1 else 0)
         else 0) +
        (if p1.row = r then
          (if m1 = m then 1 else 0) -
            (if getCell b p1.row p1.col = m then 1 else 0)
         else 0) := by
  rw [rowCount_setCell (setCell b p0.row p0.col m0) p1.row p1.col m1 r m
    (by rw [length_setCell]; exact hr1)
    (by rw [length_getD_setCell]; exact hc1)]
  rw [rowCount_setCell b p0.row p0.col m0 r m hr0 hc0]
  rw [getCell_setCell _ _ _ _ _ _ hr0 hc0, if_neg hnc]

theorem colCount_setCell2 (b : List (List BoardCell)) (R : Nat)
    (p0 p1 : Point) (m0 m1 : BoardCell)
    (hr0 : p0.row < b.length) (hc0 : p0.col < (b.getD p0.row []).length)
    (hr1 : p1.row < b.length) (hc1 : p1.col < (b.getD p1.row []).length)
    (hR0 : p0.row < R) (hR1 : p1.row < R)
    (hnc : ¬(p0.row = p1.row ∧ p0.col = p1.col)) (c : Nat) (m : BoardCell) :
    (colCount (setCell (setCell b p0.row p0.col m0) p1.row p1.col m1)
        R c m : Int) =
      (colCount b R c m : Int) +
        (if p0.col = c then
          (if m0 = m then 1 else 0) -
            (if getCell b p0.row p0.col = m then 1 else 0)
         else 0) +
        (if p1.col = c then
          (if m1 = m then 1 else 0) -
            (if getCell b p1.row p1.col = m then 1 else 0)
         else 0) := by
  rw [colCount_setCell (setCell b p0.row p0.col m0) R p1.row p1.col m1 c m
    (by rw [length_setCell]; exact hr1)
    (by rw [length_getD_setCell]; exact hc1) hR1]
  rw [colCount_setCell b R p0.row p0.col m0 c m hr0 hc0 hR0]
  rw [getCell_setCell _ _ _ _ _ _ hr0 hc0, if_neg hnc]

/-- Dimension discipline of the State Store. -/
def StoreDims (csp : CSP) : Prop :=
  csp.board.length = csp.row_size ∧
  (∀ row ∈ csp.board, row.length = csp.col_size) ∧
  csp.curr_row_pos_poles.length = csp.row_size ∧
  csp.curr_row_neg_poles.length = csp.row_size ∧
  csp.curr_col_pos_poles.length = csp.col_size ∧
  csp.curr_col_neg_poles.length = csp.col_size

/-- The claimed invariant: every running counter equals a direct scan of the
grid (`Empty` and `Unmarked` cells never counted). -/
def CountersMatchScan (csp : CSP) : Prop :=
  (∀ r, r < csp.row_size →
    getI csp.curr_row_pos_poles r =
      (rowCount csp.board r BoardCell.Positive : Int) ∧
    getI csp.curr_row_neg_poles r =
      (rowCount csp.board r BoardCell.Negative : Int)) ∧
  (∀ c, c < csp.col_size →
    getI csp.curr_col_pos_poles c =
      (colCount csp.board csp.row_size c BoardCell.Positive : Int) ∧
    getI csp.curr_col_neg_poles c =
      (colCount csp.board csp.row_size c BoardCell.Negative : Int))

/-- Combined State-Store invariant. -/
def StoreInv (csp : CSP) : Prop := StoreDims csp ∧ CountersMatchScan csp

/-- The cell marks an orientation leaves on a domino's two poles — the
condition a guarded `unassign` must find on the grid. -/
def marksMatch (csp : CSP) (p0 p1 : Point) : Value → Prop
  | Value.Pole1PositivePole2Negative =>
    getCell csp.board p0.row p0.col = BoardCell.Positive ∧
    getCell csp.board p1.row p1.col = BoardCell.Negative
  | Value.Pole2PositivePole1Negative =>
    getCell csp.board p0.row p0.col = BoardCell.Negative ∧
    getCell csp.board p1.row p1.col = BoardCell.Positive
  | _ =>
    (getCell csp.board p0.row p0.col = BoardCell.Empty ∨
     getCell csp.board p0.row p0.col = BoardCell.Unassigned) ∧
    (getCell csp.board p1.row p1.col = BoardCell.Empty ∨
     getCell csp.board p1.row p1.col = BoardCell.Unassigned)

/-- One guarded State-Store operation: an `assign` applied to a domino with
two distinct in-bounds poles whose cells are both `Unmarked`, or an
`unassign` applied with an orientation matching the marks currently on the
domino's cells. -/
inductive StoreStep : CSP → Assignment → CSP → Assignment → Prop where
  | assign (csp : CSP) (asg : Assignment) (value : Value) (vi : Nat)
      (p0 p1 : Point)
      (hv : (csp.vars.getD vi dummyVar).poles = [p0, p1])
      (hr0 : p0.row < csp.row_size) (hc0 : p0.col < csp.col_size)
      (hr1 : p1.row < csp.row_size) (hc1 : p1.col < csp.col_size)
      (hne : ¬(p0.row = p1.row ∧ p0.col = p1.col))
      (h0 : getCell csp.board p0.row p0.col = BoardCell.Unassigned)
      (h1 : getCell csp.board p1.row p1.col = BoardCell.Unassigned) :
      StoreStep csp asg (csp.assign value vi asg).2.1
        (csp.assign value vi asg).2.2
  | unassign (csp : CSP) (asg : Assignment) (value : Value) (vi : Nat)
      (p0 p1 : Point)
      (hv : (csp.vars.getD vi dummyVar).poles = [p0, p1])
      (hr0 : p0.row < csp.row_size) (hc0 : p0.col < csp.col_size)
      (hr1 : p1.row < csp.row_size) (hc1 : p1.col < csp.col_size)
      (hne : ¬(p0.row = p1.row ∧ p0.col = p1.col))
      (hm : marksMatch csp p0 p1 value) :
      StoreStep csp asg (csp.unassign value vi asg).1
        (csp.unassign value vi asg).2

/-- States reachable from a starting store by guarded operations. -/
inductive StoreReachable (c0 : CSP) (a0 : Assignment) :
    CSP → Assignment → Prop where
  | refl : StoreReachable c0 a0 c0 a0
  | step (c1 : CSP) (a1 : Assignment) (c2 : CSP) (a2 : Assignment) :
      StoreReachable c0 a0 c1 a1 → StoreStep c1 a1 c2 a2 →
      StoreReachable c0 a0 c2 a2

theorem boardRowLen (bd : List (List BoardCell)) (n k a : Nat)
    (h1 : bd.length = n) (h2 : ∀ row ∈ bd, row.length = k) (ha : a < n) :
    (bd.getD a []).length = k := by
  have halt : a < bd.length := by omega
  rw [List.getD_eq_getElem?_getD, List.getElem?_eq_getElem halt]
  exact h2 _ (List.getElem_mem halt)

theorem shape_setCell (bd : List (List BoardCell)) (n k a b : Nat)
    (v : BoardCell) (ha : a < n)
    (h1 : bd.length = n) (h2 : ∀ row ∈ bd, row.length = k) :
    (setCell bd a b v).length = n ∧
      ∀ row ∈ setCell bd a b v, row.length = k := by
  constructor
  · rw [length_setCell, h1]
  · intro row hrow
    rcases List.mem_or_eq_of_mem_set hrow with hmem | heq
    · exact h2 _ hmem
    · subst heq
      rw [List.length_set]
      exact boardRowLen bd n k a h1 h2 ha

theorem getI_bumpI_d (l : List Int) (k : Nat) (hk : k < l.length) (d : Int)
    (i : Nat) : getI (bumpI l k d) i = getI l i + if i = k then d else 0 := by
  rw [getI_bumpI]
  by_cases h : i = k
  · subst h
    rw [if_pos ⟨rfl, hk⟩, if_pos rfl]
  · rw [if_neg (by tauto), if_neg h, add_zero]

theorem storeInv_preserved (c1 : CSP) (a1 : Assignment) (c2 : CSP)
    (a2 : Assignment) (hstep : StoreStep c1 a1 c2 a2) (hinv : StoreInv c1) :
    StoreInv c2 := by
  obtain ⟨⟨hbl, hbr, hl1, hl2, hl3, hl4⟩, hrows, hcols⟩ := hinv
  cases hstep with
  | assign value vi p0 p1 hv hr0 hc0 hr1 hc1 hne h0 h1 =>
    have hb0 : p0.row < c1.board.length := by omega
    have hb0c : p0.col < (c1.board.getD p0.row []).length := by
      rw [boardRowLen c1.board c1.row_size c1.col_size p0.row hbl hbr hr0]
      exact hc0
    have hb1 : p1.row < c1.board.length := by omega
    have hb1c : p1.col < (c1.board.getD p1.row []).length := by
      rw [boardRowLen c1.board c1.row_size c1.col_size p1.row hbl hbr hr1]
      exact hc1
    have hs1 := shape_setCell c1.board c1.row_size c1.col_size p0.row
      p0.col BoardCell.Positive hr0 hbl hbr
    cases value with
    | Pole1PositivePole2Negative =>
      rw [assign_F_applied c1 vi a1 p0 p1 hv h0 h1]
      dsimp only
      refine ⟨⟨?_, ?_, ?_, ?_, ?_, ?_⟩, ?_, ?_⟩
      · rw [length_setCell, length_setCell, hbl]
      · exact (shape_setCell _ c1.row_size c1.col_size p1.row p1.col
          BoardCell.Negative hr1 hs1.1 hs1.2).2
      · unfold bumpI
        rw [List.length_set, hl1]
      · unfold bumpI
        rw [List.length_set, hl2]
      · unfold bumpI
        rw [List.length_set, hl3]
      · unfold bumpI
        rw [List.length_set, hl4]
      · intro r hr
        constructor
        · rw [getI_bumpI_d c1.curr_row_pos_poles p0.row (by omega) 1 r]
          rw [rowCount_setCell2 c1.board p0 p1 BoardCell.Positive
            BoardCell.Negative hb0 hb0c hb1 hb1c hne r BoardCell.Positive]
          rw [h0, h1, (hrows r hr).1]
          by_cases hA : p0.row = r <;> by_cases hB : p1.row = r <;>
            simp [hA, hB, eq_comm] <;> rw [if_neg (by omega)]
        · rw [getI_bumpI_d c1.curr_row_neg_poles p1.row (by omega) 1 r]
          rw [rowCount_setCell2 c1.board p0 p1 BoardCell.Positive
            BoardCell.Negative hb0 hb0c hb1 hb1c hne r BoardCell.Negative]
          rw [h0, h1, (hrows r hr).2]
          by_cases hA : p0.row = r <;> by_cases hB : p1.row = r <;>
            simp [hA, hB, eq_comm] <;> rw [if_neg (by omega)]
      · intro c hc
        constructor
        · rw [getI_bumpI_d c1.curr_col_pos_poles p0.col (by omega) 1 c]
          rw [colCount_setCell2 c1.board c1.row_size p0 p1
            BoardCell.Positive BoardCell.Negative hb0 hb0c hb1 hb1c hr0 hr1
            hne c BoardCell.Positive]
          rw [h0, h1, (hcols c hc).1]
          by_cases hA : p0.col = c <;> by_cases hB : p1.col = c <;>
            simp [hA, hB, eq_comm] <;> rw [if_neg (by omega)]
        · rw [getI_bumpI_d c1.curr_col_neg_poles p1.col (by omega) 1 c]
          rw [colCount_setCell2 c1.board c1.row_size p0 p1
            BoardCell.Positive BoardCell.Negative hb0 hb0c hb1 hb1c hr0 hr1
            hne c BoardCell.Negative]
          rw [h0, h1, (hcols c hc).2]
          by_cases hA : p0.col = c <;> by_cases hB : p1.col = c <;>
            simp [hA, hB, eq_comm] <;> rw [if_neg (by omega)]
    | Pole2PositivePole1Negative =>
      rw [assign_R_applied c1 vi a1 p0 p1 hv h0 h1]
      dsimp only
      have hs1n := shape_setCell c1.board c1.row_size c1.col_size p0.row
        p0.col BoardCell.Negative hr0 hbl hbr
      refine ⟨⟨?_, ?_, ?_, ?_, ?_, ?_⟩, ?_, ?_⟩
      · rw [length_setCell, length_setCell, hbl]
      · exact (shape_setCell _ c1.row_size c1.col_size p1.row p1.col
          BoardCell.Positive hr1 hs1n.1 hs1n.2).2
      · unfold bumpI
        rw [List.length_set, hl1]
      · unfold bumpI
        rw [List.length_set, hl2]
      · unfold bumpI
        rw [List.length_set, hl3]
      · unfold bumpI
        rw [List.length_set, hl4]
      · intro r hr
        constructor
        · rw [getI_bumpI_d c1.curr_row_pos_poles p1.row (by omega) 1 r]
          rw [rowCount_setCell2 c1.board p0 p1 BoardCell.Negative
            BoardCell.Positive hb0 hb0c hb1 hb1c hne r BoardCell.Positive]
          rw [h0, h1, (hrows r hr).1]
          by_cases hA : p0.row = r <;> by_cases hB : p1.row = r <;>
            simp [hA, hB, eq_comm] <;> rw [if_neg (by omega)]
        · rw [getI_bumpI_d c1.curr_row_neg_poles p0.row (by omega) 1 r]
          rw [rowCount_setCell2 c1.board p0 p1 BoardCell.Negative
            BoardCell.Positive hb0 hb0c hb1 hb1c hne r BoardCell.Negative]
          rw [h0, h1, (hrows r hr).2]
          by_cases hA : p0.row = r <;> by_cases hB : p1.row = r <;>
            simp [hA, hB, eq_comm] <;> rw [if_neg (by omega)]
      · intro c hc
        constructor
        · rw [getI_bumpI_d c1.curr_col_pos_poles p1.col (by omega) 1 c]
          rw [colCount_setCell2 c1.board c1.row_size p0 p1
            BoardCell.Negative BoardCell.Positive hb0 hb0c hb1 hb1c hr0 hr1
            hne c BoardCell.Positive]
          rw [h0, h1, (hcols c hc).1]
          by_cases hA : p0.col = c <;> by_cases hB : p1.col = c <;>
            simp [hA, hB, eq_comm] <;> rw [if_neg (by omega)]
        · rw [getI_bumpI_d c1.curr_col_neg_poles p0.col (by omega) 1 c]
          rw [colCount_setCell2 c1.board c1.row_size p0 p1
            BoardCell.Negative BoardCell.Positive hb0 hb0c hb1 hb1c hr0 hr1
            hne c BoardCell.Negative]
          rw [h0, h1, (hcols c hc).2]
          by_cases hA : p0.col = c <;> by_cases hB : p1.col = c <;>
            simp [hA, hB, eq_comm] <;> rw [if_neg (by omega)]
    | Empty =>
      rw [assign_E_eq c1 vi a1 p0 p1 hv]
      dsimp only
      have hs1e := shape_setCell c1.board c1.row_size c1.col_size p0.row
        p0.col BoardCell.Empty hr0 hbl hbr
      refine ⟨⟨?_, ?_, hl1, hl2, hl3, hl4⟩, ?_, ?_⟩
      · rw [length_setCell, length_setCell, hbl]
      · exact (shape_setCell _ c1.row_size c1.col_size p1.row p1.col
          BoardCell.Empty hr1 hs1e.1 hs1e.2).2
      · intro r hr
        constructor
        · rw [rowCount_setCell2 c1.board p0 p1 BoardCell.Empty
            BoardCell.Empty hb0 hb0c hb1 hb1c hne r BoardCell.Positive]
          rw [h0, h1, (hrows r hr).1]
          simp
        · rw [rowCount_setCell2 c1.board p0 p1 BoardCell.Empty
            BoardCell.Empty hb0 hb0c hb1 hb1c hne r BoardCell.Negative]
          rw [h0, h1, (hrows r hr).2]
          simp
      · intro c hc
        constructor
        · rw [colCount_setCell2 c1.board c1.row_size p0 p1 BoardCell.Empty
            BoardCell.Empty hb0 hb0c hb1 hb1c hr0 hr1 hne c
            BoardCell.Positive]
          rw [h0, h1, (hcols c hc).1]
          simp
        · rw [colCount_setCell2 c1.board c1.row_size p0 p1 BoardCell.Empty
            BoardCell.Empty hb0 hb0c hb1 hb1c hr0 hr1 hne c
            BoardCell.Negative]
          rw [h0, h1, (hcols c hc).2]
          simp
    | Unassigned =>
      exact ⟨⟨hbl, hbr, hl1, hl2, hl3, hl4⟩, hrows, hcols⟩
  | unassign value vi p0 p1 hv hr0 hc0 hr1 hc1 hne hm =>
    have hp0 : (c1.vars.getD vi dummyVar).poles.getD 0 dummyPoint = p0 := by
      rw [hv]; simp
    have hp1 : (c1.vars.getD vi dummyVar).poles.getD 1 dummyPoint = p1 := by
      rw [hv]; simp
    have hb0 : p0.row < c1.board.length := by omega
    have hb0c : p0.col < (c1.board.getD p0.row []).length := by
      rw [boardRowLen c1.board c1.row_size c1.col_size p0.row hbl hbr hr0]
      exact hc0
    have hb1 : p1.row < c1.board.length := by omega
    have hb1c : p1.col < (c1.board.getD p1.row []).length := by
      rw [boardRowLen c1.board c1.row_size c1.col_size p1.row hbl hbr hr1]
      exact hc1
    have hsU := shape_setCell c1.board c1.row_size c1.col_size p0.row
      p0.col BoardCell.Unassigned hr0 hbl hbr
    have hshape : (setCell (setCell c1.board p0.row p0.col
        BoardCell.Unassigned) p1.row p1.col BoardCell.Unassigned).length =
          c1.row_size ∧
        ∀ row ∈ setCell (setCell c1.board p0.row p0.col
          BoardCell.Unassigned) p1.row p1.col BoardCell.Unassigned,
          row.length = c1.col_size :=
      ⟨by rw [length_setCell, length_setCell, hbl],
       (shape_setCell _ c1.row_size c1.col_size p1.row p1.col
         BoardCell.Unassigned hr1 hsU.1 hsU.2).2⟩
    cases value with
    | Pole1PositivePole2Negative =>
      obtain ⟨hm0, hm1⟩ := hm
      rw [unassign_F_reduce]
      dsimp only
      rw [hp0, hp1]
      refine ⟨⟨hshape.1, hshape.2, ?_, ?_, ?_, ?_⟩, ?_, ?_⟩
      · unfold bumpI
        rw [List.length_set, hl1]
      · unfold bumpI
        rw [List.length_set, hl2]
      · unfold bumpI
        rw [List.length_set, hl3]
      · unfold bumpI
        rw [List.length_set, hl4]
      · intro r hr
        constructor
        · rw [getI_bumpI_d c1.curr_row_pos_poles p0.row (by omega) (-1) r]
          rw [rowCount_setCell2 c1.board p0 p1 BoardCell.Unassigned
            BoardCell.Unassigned hb0 hb0c hb1 hb1c hne r BoardCell.Positive]
          rw [hm0, hm1, (hrows r hr).1]
          by_cases hA : p0.row = r <;> by_cases hB : p1.row = r <;>
            simp [hA, hB, eq_comm] <;> rw [if_neg (by omega)]
        · rw [getI_bumpI_d c1.curr_row_neg_poles p1.row (by omega) (-1) r]
          rw [rowCount_setCell2 c1.board p0 p1 BoardCell.Unassigned
            BoardCell.Unassigned hb0 hb0c hb1 hb1c hne r BoardCell.Negative]
          rw [hm0, hm1, (hrows r hr).2]
          by_cases hA : p0.row = r <;> by_cases hB : p1.row = r <;>
            simp [hA, hB, eq_comm] <;> rw [if_neg (by omega)]
      · intro c hc
        constructor
        · rw [getI_bumpI_d c1.curr_col_pos_poles p0.col (by omega) (-1) c]
          rw [colCount_setCell2 c1.board c1.row_size p0 p1
            BoardCell.Unassigned BoardCell.Unassigned hb0 hb0c hb1 hb1c hr0
            hr1 hne c BoardCell.Positive]
          rw [hm0, hm1, (hcols c hc).1]
          by_cases hA : p0.col = c <;> by_cases hB : p1.col = c <;>
            simp [hA, hB, eq_comm] <;> rw [if_neg (by omega)]
        · rw [getI_bumpI_d c1.curr_col_neg_poles p1.col (by omega) (-1) c]
          rw [colCount_setCell2 c1.board c1.row_size p0 p1
            BoardCell.Unassigned BoardCell.Unassigned hb0 hb0c hb1 hb1c hr0
            hr1 hne c BoardCell.Negative]
          rw [hm0, hm1, (hcols c hc).2]
          by_cases hA : p0.col = c <;> by_cases hB : p1.col = c <;>
            simp [hA, hB, eq_comm] <;> rw [if_neg (by omega)]
    | Pole2PositivePole1Negative =>
      obtain ⟨hm0, hm1⟩ := hm
      rw [unassign_R_reduce]
      dsimp only
      rw [hp0, hp1]
      refine ⟨⟨hshape.1, hshape.2, ?_, ?_, ?_, ?_⟩, ?_, ?_⟩
      · unfold bumpI
        rw [List.length_set, hl1]
      · unfold bumpI
        rw [List.length_set, hl2]
      · unfold bumpI
        rw [List.length_set, hl3]
      · unfold bumpI
        rw [List.length_set, hl4]
      · intro r hr
        constructor
        · rw [getI_bumpI_d c1.curr_row_pos_poles p1.row (by omega) (-1) r]
          rw [rowCount_setCell2 c1.board p0 p1 BoardCell.Unassigned
            BoardCell.Unassigned hb0 hb0c hb1 hb1c hne r BoardCell.Positive]
          rw [hm0, hm1, (hrows r hr).1]
          by_cases hA : p0.row = r <;> by_cases hB : p1.row = r <;>
            simp [hA, hB, eq_comm] <;> rw [if_neg (by omega)]
        · rw [getI_bumpI_d c1.curr_row_neg_poles p0.row (by omega) (-1) r]
          rw [rowCount_setCell2 c1.board p0 p1 BoardCell.Unassigned
            BoardCell.Unassigned hb0 hb0c hb1 hb1c hne r BoardCell.Negative]
          rw [hm0, hm1, (hrows r hr).2]
          by_cases hA : p0.row = r <;> by_cases hB : p1.row = r <;>
            simp [hA, hB, eq_comm] <;> rw [if_neg (by omega)]
      · intro c hc
        constructor
        · rw [getI_bumpI_d c1.curr_col_pos_poles p1.col (by omega) (-1) c]
          rw [colCount_setCell2 c1.board c1.row_size p0 p1
            BoardCell.Unassigned BoardCell.Unassigned hb0 hb0c hb1 hb1c hr0
            hr1 hne c BoardCell.Positive]
          rw [hm0, hm1, (hcols c hc).1]
          by_cases hA : p0.col = c <;> by_cases hB : p1.col = c <;>
            simp [hA, hB, eq_comm] <;> rw [if_neg (by omega)]
        · rw [getI_bumpI_d c1.curr_col_neg_poles p0.col (by omega) (-1) c]
          rw [colCount_setCell2 c1.board c1.row_size p0 p1
            BoardCell.Unassigned BoardCell.Unassigned hb0 hb0c hb1 hb1c hr0
            hr1 hne c BoardCell.Negative]
          rw [hm0, hm1, (hcols c hc).2]
          by_cases hA : p0.col = c <;> by_cases hB : p1.col = c <;>
            simp [hA, hB, eq_comm] <;> rw [if_neg (by omega)]
    | Empty =>
      obtain ⟨hm0, hm1⟩ := hm
      rw [unassign_E_reduce]
      dsimp only
      rw [hp0, hp1]
      refine ⟨⟨hshape.1, hshape.2, hl1, hl2, hl3, hl4⟩, ?_, ?_⟩
      · intro r hr
        constructor
        · rw [rowCount_setCell2 c1.board p0 p1 BoardCell.Unassigned
            BoardCell.Unassigned hb0 hb0c hb1 hb1c hne r BoardCell.Positive]
          rw [(hrows r hr).1]
          rcases hm0 with he0 | he0 <;> rcases hm1 with he1 | he1 <;>
            rw [he0, he1] <;> simp
        · rw [rowCount_setCell2 c1.board p0 p1 BoardCell.Unassigned
            BoardCell.Unassigned hb0 hb0c hb1 hb1c hne r BoardCell.Negative]
          rw [(hrows r hr).2]
          rcases hm0 with he0 | he0 <;> rcases hm1 with he1 | he1 <;>
            rw [he0, he1] <;> simp
      · intro c hc
        constructor
        · rw [colCount_setCell2 c1.board c1.row_size p0 p1
            BoardCell.Unassigned BoardCell.Unassigned hb0 hb0c hb1 hb1c hr0
            hr1 hne c BoardCell.Positive]
          rw [(hcols c hc).1]
          rcases hm0 with he0 | he0 <;> rcases hm1 with he1 | he1 <;>
            rw [he0, he1] <;> simp
        · rw [colCount_setCell2 c1.board c1.row_size p0 p1
            BoardCell.Unassigned BoardCell.Unassigned hb0 hb0c hb1 hb1c hr0
            hr1 hne c BoardCell.Negative]
          rw [(hcols c hc).2]
          rcases hm0 with he0 | he0 <;> rcases hm1 with he1 | he1 <;>
            rw [he0, he1] <;> simp
    | Unassigned =>
      obtain ⟨hm0, hm1⟩ := hm
      rw [unassign_U_reduce]
      dsimp only
      rw [hp0, hp1]
      refine ⟨⟨hshape.1, hshape.2, hl1, hl2, hl3, hl4⟩, ?_, ?_⟩
      · intro r hr
        constructor
        · rw [rowCount_setCell2 c1.board p0 p1 BoardCell.Unassigned
            BoardCell.Unassigned hb0 hb0c hb1 hb1c hne r BoardCell.Positive]
          rw [(hrows r hr).1]
          rcases hm0 with he0 | he0 <;> rcases hm1 with he1 | he1 <;>
            rw [he0, he1] <;> simp
        · rw [rowCount_setCell2 c1.board p0 p1 BoardCell.Unassigned
            BoardCell.Unassigned hb0 hb0c hb1 hb1c hne r BoardCell.Negative]
          rw [(hrows r hr).2]
          rcases hm0 with he0 | he0 <;> rcases hm1 with he1 | he1 <;>
            rw [he0, he1] <;> simp
      · intro c hc
        constructor
        · rw [colCount_setCell2 c1.board c1.row_size p0 p1
            BoardCell.Unassigned BoardCell.Unassigned hb0 hb0c hb1 hb1c hr0
            hr1 hne c BoardCell.Positive]
          rw [(hcols c hc).1]
          rcases hm0 with he0 | he0 <;> rcases hm1 with he1 | he1 <;>
            rw [he0, he1] <;> simp
        · rw [colCount_setCell2 c1.board c1.row_size p0 p1
            BoardCell.Unassigned BoardCell.Unassigned hb0 hb0c hb1 hb1c hr0
            hr1 hne c BoardCell.Negative]
          rw [(hcols c hc).2]
          rcases hm0 with he0 | he0 <;> rcases hm1 with he1 | he1 <;>
            rw [he0, he1] <;> simp

theorem storeInv_new (row_size col_size : Nat) (rp rn cp cn : List Int)
    (raw : List (List Nat)) (mode : InferenceMode)
    (h1 : rp.length = row_size) (h2 : rn.length = row_size)
    (h3 : cp.length = col_size) (h4 : cn.length = col_size) :
    StoreInv (CSP.new row_size col_size rp rn cp cn raw mode) := by
  refine ⟨⟨by simp [CSP.new], ?_, by simp [CSP.new, h1], by simp [CSP.new, h2],
    by simp [CSP.new, h3], by simp [CSP.new, h4]⟩, ?_, ?_⟩
  · intro row hrow
    have : row = List.replicate col_size BoardCell.Unassigned :=
      List.eq_of_mem_replicate hrow
    rw [this]
    simp [CSP.new]
  · intro r _
    constructor
    · show getI (List.replicate rp.length 0) r =
        (rowCount (List.replicate row_size
          (List.replicate col_size BoardCell.Unassigned)) r
          BoardCell.Positive : Int)
      unfold getI rowCount
      rw [getD_replicate_eq, getD_replicate_eq]
      by_cases hlt : r < rp.length <;> by_cases hlt2 : r < row_size <;>
        simp [hlt, hlt2, List.count_replicate]
    · show getI (List.replicate rn.length 0) r =
        (rowCount (List.replicate row_size
          (List.replicate col_size BoardCell.Unassigned)) r
          BoardCell.Negative : Int)
      unfold getI rowCount
      rw [getD_replicate_eq, getD_replicate_eq]
      by_cases hlt : r < rn.length <;> by_cases hlt2 : r < row_size <;>
        simp [hlt, hlt2, List.count_replicate]
  · intro c _
    constructor
    · show getI (List.replicate cp.length 0) c =
        (colCount (List.replicate row_size
          (List.replicate col_size BoardCell.Unassigned)) row_size c
          BoardCell.Positive : Int)
      unfold getI colCount
      rw [getD_replicate_eq]
      have hcc : colCells (List.replicate row_size
          (List.replicate col_size BoardCell.Unassigned)) row_size c =
          List.replicate row_size (getCell (List.replicate row_size
            (List.replicate col_size BoardCell.Unassigned)) 0 c) := by
        unfold colCells
        apply List.ext_getElem?
        intro n
        rw [List.getElem?_map, List.getElem?_replicate]
        by_cases hn : n < row_size
        · rw [List.getElem?_range hn, if_pos hn]
          show some (getCell _ n c) = some (getCell _ 0 c)
          unfold getCell
          rw [getD_replicate_eq, getD_replicate_eq]
          by_cases h0 : 0 < row_size <;> simp [hn, h0]
        · rw [List.getElem?_eq_none (by rw [List.length_range]; omega),
            if_neg hn]
          rfl
      rw [hcc]
      unfold getCell
      rw [getD_replicate_eq]
      by_cases hlt : c < cp.length <;> by_cases h0 : 0 < row_size <;>
        simp [hlt, h0, getD_replicate_eq, List.count_replicate]
    · show getI (List.replicate cn.length 0) c =
        (colCount (List.replicate row_size
          (List.replicate col_size BoardCell.Unassigned)) row_size c
          BoardCell.Negative : Int)
      unfold getI colCount
      rw [getD_replicate_eq]
      have hcc : colCells (List.replicate row_size
          (List.replicate col_size BoardCell.Unassigned)) row_size c =
          List.replicate row_size (getCell (List.replicate row_size
            (List.replicate col_size BoardCell.Unassigned)) 0 c) := by
        unfold colCells
        apply List.ext_getElem?
        intro n
        rw [List.getElem?_map, List.getElem?_replicate]
        by_cases hn : n < row_size
        · rw [List.getElem?_range hn, if_pos hn]
          show some (getCell _ n c) = some (getCell _ 0 c)
          unfold getCell
          rw [getD_replicate_eq, getD_replicate_eq]
          by_cases h0 : 0 < row_size <;> simp [hn, h0]
        · rw [List.getElem?_eq_none (by rw [List.length_range]; omega),
            if_neg hn]
          rfl
      rw [hcc]
      unfold getCell
      rw [getD_replicate_eq]
      by_cases hlt : c < cn.length <;> by_cases h0 : 0 < row_size <;>
        simp [hlt, h0, getD_replicate_eq, List.count_replicate]

/-- C8 (amended): in every state reachable from construction by guarded
assign/unassign operations — each `assign` applied to a domino with two
distinct in-bounds poles whose cells are both `Unmarked`, each `unassign`
applied with the orientation whose marks the domino's cells currently
carry — every running quota counter equals a direct scan of the grid
(`Empty` and `Unmarked` cells never counted). -/
theorem C8_counters_equal_scan (row_size col_size : Nat)
    (rp rn cp cn : List Int) (raw : List (List Nat)) (mode : InferenceMode)
    (hrp : rp.length = row_size) (hrn : rn.length = row_size)
    (hcp : cp.length = col_size) (hcn : cn.length = col_size)
    (a0 : Assignment) (c : CSP) (a : Assignment)
    (hreach : StoreReachable (CSP.new row_size col_size rp rn cp cn raw mode)
      a0 c a) :
    CountersMatchScan c := by
  have hinv : StoreInv c := by
    induction hreach with
    | refl =>
      exact storeInv_new row_size col_size rp rn cp cn raw mode hrp hrn hcp hcn
    | step c1 a1 c2 a2 hre hst ih =>
      exact storeInv_preserved c1 a1 c2 a2 hst ih
  exact hinv.2

/-- The state reached from the freshly constructed `cspC1` by a bare
(unguarded) `unassign` of `ForwardPolarity`. -/
def c8bad : CSP :=
  (cspC1.unassign Value.Pole1PositivePole2Negative 0 [Value.Unassigned]).1

/-- C8 counterexample: the claim quantifies over arbitrary sequences of
assign and unassign operations; a single `unassign` applied to the freshly
constructed store drives `curr_row_pos_poles[0]` to `-1` while the grid
contains no `Positive` mark at all, so the counters no longer equal a direct
scan. -/
theorem C8_counterexample :
    getI c8bad.curr_row_pos_poles 0 = -1 ∧
    rowCount c8bad.board 0 BoardCell.Positive = 0 ∧
    ¬CountersMatchScan c8bad := by
  refine ⟨rfl, rfl, ?_⟩
  intro h
  have := (h.1 0 (by decide)).1
  rw [(rfl : getI c8bad.curr_row_pos_poles 0 = -1)] at this
  rw [(rfl : rowCount c8bad.board 0 BoardCell.Positive = 0)] at this
  exact absurd this (by decide)

/-- Witness for C8: the state of `cspC1` after one guarded assign of
`ForwardPolarity` satisfies the counters-equal-scan invariant. -/
theorem C8_counters_equal_scan_witness :
    (([0, 0] : List Int).length = 2 ∧ ([1] : List Int).length = 1) ∧
    CountersMatchScan
      (cspC1.assign Value.Pole1PositivePole2Negative 0 [Value.Unassigned]).2.1 :=
  ⟨⟨by decide, by decide⟩,
   C8_counters_equal_scan 2 1 [0, 0] [0, 0] [1] [1] [[1], [2]]
     InferenceMode.FC rfl rfl rfl rfl [Value.Unassigned] _ _
     (StoreReachable.step cspC1 [Value.Unassigned]
       (cspC1.assign Value.Pole1PositivePole2Negative 0 [Value.Unassigned]).2.1
       (cspC1.assign Value.Pole1PositivePole2Negative 0 [Value.Unassigned]).2.2
       StoreReachable.refl
       (StoreStep.assign cspC1 [Value.Unassigned]
         Value.Pole1PositivePole2Negative 0 ⟨0, 0⟩ ⟨1, 0⟩ (by decide)
         (by decide) (by decide) (by decide) (by decide) (by decide)
         (by decide) (by decide)))⟩

/-- Does orientation `v` place a positive mark at pole index `i` of its own
domino? -/
def placesPositive (v : Value) (i : Nat) : Prop :=
  (v = Value.Pole1PositivePole2Negative ∧ i = 0) ∨
  (v = Value.Pole2PositivePole1Negative ∧ i = 1)

/-- Does orientation `v` place a negative mark at pole index `i` of its own
domino? -/
def placesNegative (v : Value) (i : Nat) : Prop :=
  (v = Value.Pole1PositivePole2Negative ∧ i = 1) ∨
  (v = Value.Pole2PositivePole1Negative ∧ i = 0)

instance placesPositiveDec (v : Value) (i : Nat) :
    Decidable (placesPositive v i) := by
  unfold placesPositive
  infer_instance

instance placesNegativeDec (v : Value) (i : Nat) :
    Decidable (placesNegative v i) := by
  unfold placesNegative
  infer_instance

/-- The orientation that places a positive mark at pole index `i`. -/
def valuePlacingPositiveAt (i : Nat) : Option Value :=
  if i = 0 then some Value.Pole1PositivePole2Negative
  else if i = 1 then some Value.Pole2PositivePole1Negative
  else none

/-- The orientation that places a negative mark at pole index `i`. -/
def valuePlacingNegativeAt (i : Nat) : Option Value :=
  if i = 0 then some Value.Pole2PositivePole1Negative
  else if i = 1 then some Value.Pole1PositivePole2Negative
  else none

theorem tablePosOne (v : Value) (xip xjp : Nat) :
    (match v with
     | Value.Pole1PositivePole2Negative =>
       if xip = 0 ∧ xjp = 0 then some Value.Pole1PositivePole2Negative
       else if xip = 0 ∧ xjp = 1 then some Value.Pole2PositivePole1Negative
       else none
     | Value.Pole2PositivePole1Negative =>
       if xip = 1 ∧ xjp = 0 then some Value.Pole1PositivePole2Negative
       else if xip = 1 ∧ xjp = 1 then some Value.Pole2PositivePole1Negative
       else none
     | _ => none) =
    (if placesPositive v xip then valuePlacingPositiveAt xjp else none) := by
  cases v <;>
    by_cases h0 : xip = 0 <;> by_cases h1 : xip = 1 <;>
    by_cases j0 : xjp = 0 <;> by_cases j1 : xjp = 1 <;>
    simp_all [placesPositive, valuePlacingPositiveAt]

theorem tableNegOne (v : Value) (xip xjp : Nat) :
    (match v with
     | Value.Pole1PositivePole2Negative =>
       if xip = 1 ∧ xjp = 0 then some Value.Pole2PositivePole1Negative
       else if xip = 1 ∧ xjp = 1 then some Value.Pole1PositivePole2Negative
       else none
     | Value.Pole2PositivePole1Negative =>
       if xip = 0 ∧ xjp = 0 then some Value.Pole2PositivePole1Negative
       else if xip = 0 ∧ xjp = 1 then some Value.Pole1PositivePole2Negative
       else none
     | _ => none) =
    (if placesNegative v xip then valuePlacingNegativeAt xjp else none) := by
  cases v <;>
    by_cases h0 : xip = 0 <;> by_cases h1 : xip = 1 <;>
    by_cases j0 : xjp = 0 <;> by_cases j1 : xjp = 1 <;>
    simp_all [placesNegative, valuePlacingNegativeAt]

theorem tablePosTwo (v : Value) (xip : Nat) :
    (match v with
     | Value.Pole1PositivePole2Negative =>
       if xip = 0 then some Value.Empty else none
     | Value.Pole2PositivePole1Negative =>
       if xip = 1 then some Value.Empty else none
     | _ => none) =
    (if placesPositive v xip then some Value.Empty else none) := by
  cases v <;>
    by_cases h0 : xip = 0 <;> by_cases h1 : xip = 1 <;>
    simp_all [placesPositive]

theorem tableNegTwo (v : Value) (xip : Nat) :
    (match v with
     | Value.Pole1PositivePole2Negative =>
       if xip = 1 then some Value.Empty else none
     | Value.Pole2PositivePole1Negative =>
       if xip = 0 then some Value.Empty else none
     | _ => none) =
    (if placesNegative v xip then some Value.Empty else none) := by
  cases v <;>
    by_cases h0 : xip = 0 <;> by_cases h1 : xip = 1 <;>
    simp_all [placesNegative]

theorem if_if_and {α : Type} (a b : Prop) [Decidable a] [Decidable b]
    (x y : α) : (if a then (if b then x else y) else y) = if a ∧ b then x
      else y := by
  by_cases ha : a <;> by_cases hb : b <;> simp [ha, hb]

/-- The amended claim C5, as one function (modelled on the corrected spec
wording): on a quota arc whose constrained poles share a row (symmetrically a
column), the flagged-inconsistent value for the source is computed from the
running counters minus the two poles' own contributions, by exactly this
chain: (a) exactly one positive mark short of the quota outside the two
poles — if the dependent's value places a positive at its pole, the source
value placing a positive at the source pole is flagged; (a') else, the
symmetric rule for one negative short; (b) else, exactly two positive marks
short and no other unresolved domino in the line — if the dependent's value
places a positive at its pole, `Vacant` is flagged; (b') else, the symmetric
rule for two negatives short; (c) otherwise nothing is flagged. -/
def specC5_limit_value (csp : CSP) (xi_index xj_index : Nat)
    (xi_value : Value) (xi_pole_index xj_pole_index : Nat)
    (assignment : Assignment) : Option Value :=
  let xi := csp.vars.getD xi_index dummyVar
  let xj := csp.vars.getD xj_index dummyVar
  let xi_pole := xi.poles.getD xi_pole_index dummyPoint
  let xj_pole := xj.poles.getD xj_pole_index dummyPoint
  if xi_pole.row = xj_pole.row then
    let r := xi_pole.row
    let s0 : Int := getI csp.curr_row_pos_poles r
    let s1 := if getCell csp.board xi_pole.row xi_pole.col = BoardCell.Positive
      then s0 - 1 else s0
    let posOutside :=
      if getCell csp.board xj_pole.row xj_pole.col = BoardCell.Positive
      then s1 - 1 else s1
    let t0 : Int := getI csp.curr_row_neg_poles r
    let t1 := if getCell csp.board xi_pole.row xi_pole.col = BoardCell.Negative
      then t0 - 1 else t0
    let negOutside :=
      if getCell csp.board xj_pole.row xj_pole.col = BoardCell.Negative
      then t1 - 1 else t1
    if posOutside = getI csp.row_pos_poles r - 1 then
      if placesPositive xi_value xi_pole_index then
        valuePlacingPositiveAt xj_pole_index
      else none
    else if negOutside = getI csp.row_neg_poles r - 1 then
      if placesNegative xi_value xi_pole_index then
        valuePlacingNegativeAt xj_pole_index
      else none
    else if posOutside = getI csp.row_pos_poles r - 2 then
      if noOtherUnassignedInRow csp r xi_index xj_index assignment ∧
          placesPositive xi_value xi_pole_index then
        some Value.Empty
      else none
    else if negOutside = getI csp.row_neg_poles r - 2 then
      if noOtherUnassignedInRow csp r xi_index xj_index assignment ∧
          placesNegative xi_value xi_pole_index then
        some Value.Empty
      else none
    else none
  else if xi_pole.col = xj_pole.col then
    let c := xi_pole.col
    let s0 : Int := getI csp.curr_col_pos_poles c
    let s1 := if getCell csp.board xi_pole.row xi_pole.col = BoardCell.Positive
      then s0 - 1 else s0
    let posOutside :=
      if getCell csp.board xj_pole.row xj_pole.col = BoardCell.Positive
      then s1 - 1 else s1
    let t0 : Int := getI csp.curr_col_neg_poles c
    let t1 := if getCell csp.board xi_pole.row xi_pole.col = BoardCell.Negative
      then t0 - 1 else t0
    let negOutside :=
      if getCell csp.board xj_pole.row xj_pole.col = BoardCell.Negative
      then t1 - 1 else t1
    if posOutside = getI csp.col_pos_poles c - 1 then
      if placesPositive xi_value xi_pole_index then
        valuePlacingPositiveAt xj_pole_index
      else none
    else if negOutside = getI csp.col_neg_poles c - 1 then
      if placesNegative xi_value xi_pole_index then
        valuePlacingNegativeAt xj_pole_index
      else none
    else if posOutside = getI csp.col_pos_poles c - 2 then
      if noOtherUnassignedInCol csp c xi_index xj_index assignment ∧
          placesPositive xi_value xi_pole_index then
        some Value.Empty
      else none
    else if negOutside = getI csp.col_neg_poles c - 2 then
      if noOtherUnassignedInCol csp c xi_index xj_index assignment ∧
          placesNegative xi_value xi_pole_index then
        some Value.Empty
      else none
    else none
  else none

/-- C5 (amended): the quota-arc inconsistent-value computation consulted by
`revise` is exactly the amended three-situation rule `specC5_limit_value`. -/
theorem C5_limit_value_characterization (csp : CSP) (xi_index xj_index : Nat)
    (xi_value : Value) (xi_pole_index xj_pole_index : Nat)
    (assignment : Assignment) :
    csp.get_neighbor_limit_based_inconsistent_value xi_index xj_index xi_value
      xi_pole_index xj_pole_index assignment =
    specC5_limit_value csp xi_index xj_index xi_value xi_pole_index
      xj_pole_index assignment := by
  unfold CSP.get_neighbor_limit_based_inconsistent_value specC5_limit_value
  simp only [tablePosOne, tableNegOne, tablePosTwo, tableNegTwo, if_if_and]

/-- The full three-orientation domain for both dominoes of `cspC4`. -/
def domC5 : Domain :=
  [[Value.Pole1PositivePole2Negative, Value.Pole2PositivePole1Negative,
    Value.Empty],
   [Value.Pole1PositivePole2Negative, Value.Pole2PositivePole1Negative,
    Value.Empty]]

/-- Counterexample to C5 as stated: on `cspC4` (one row, two horizontal
dominoes, all quota targets 0) the row quota is already fully met outside the
two poles of the quota arc from domino 0 to domino 1 (counters equal targets
and both pole cells are Unmarked), no other unresolved domino remains in the
row, yet `revise` removes nothing: both sign-placing orientations survive in
the revised domain, not only the Vacant-compatible ones. -/
theorem C5_counterexample :
    (getI cspC4.curr_row_pos_poles 0 = getI cspC4.row_pos_poles 0 ∧
     getI cspC4.curr_row_neg_poles 0 = getI cspC4.row_neg_poles 0 ∧
     getCell cspC4.board 0 0 = BoardCell.Unassigned ∧
     getCell cspC4.board 0 1 = BoardCell.Unassigned ∧
     getCell cspC4.board 0 2 = BoardCell.Unassigned ∧
     getCell cspC4.board 0 3 = BoardCell.Unassigned) ∧
    noOtherUnassignedInRow cspC4 0 0 1
      [Value.Unassigned, Value.Unassigned] = true ∧
    cspC4.revise ⟨0, 1, Constraint.LimitBased 0 0⟩ domC5
      [Value.Unassigned, Value.Unassigned] = (true, false, domC5) ∧
    Value.Pole1PositivePole2Negative ∈ domC5.getD 0 [] := by
  decide

/-- Grid adjacency (shared edge) between two cells, as the spec words it. -/
def gridAdjacent (p q : Point) : Prop :=
  (q.row = p.row + 1 ∧ q.col = p.col) ∨ (p.row = q.row + 1 ∧ q.col = p.col) ∨
  (q.row = p.row ∧ q.col = p.col + 1) ∨ (q.row = p.row ∧ p.col = q.col + 1)

instance gridAdjacentDec (p q : Point) : Decidable (gridAdjacent p q) := by
  unfold gridAdjacent
  infer_instance

/-- Spec-modelled requirement (claim C4, adjacency half): the arc generator
run for `var_index` must emit `arc` because some pole of the domino has a
grid-adjacent cell whose owning domino is distinct, currently unresolved and
not the exempt neighbor. -/
def specC4_requires_adjacency_arc (csp : CSP) (var_index : Nat)
    (assignment : Assignment) (except_neighbor : Nat)
    (arc : ConstraintArc) : Prop :=
  ∃ pole_number, pole_number < 2 ∧ ∃ cell : Point,
    cell.row < csp.row_size ∧ cell.col < csp.col_size ∧
    gridAdjacent
      ((csp.vars.getD var_index dummyVar).poles.getD pole_number dummyPoint)
      cell ∧
    getN2 csp.board_variable_association cell.row cell.col ≠ var_index ∧
    getV assignment
      (getN2 csp.board_variable_association cell.row cell.col) =
      Value.Unassigned ∧
    getN2 csp.board_variable_association cell.row cell.col ≠
      except_neighbor ∧
    arc = ⟨getN2 csp.board_variable_association cell.row cell.col, var_index,
      Constraint.SignBased
        (get_pole_number
          (csp.vars.getD
            (getN2 csp.board_variable_association cell.row cell.col)
            dummyVar) cell)
        pole_number⟩

/-- Spec-modelled requirement (claim C4, quota half): the arc generator run
for `var_index` must emit `arc` because some pole of the domino has another
cell in its row or its column whose owning domino is distinct, currently
unresolved and not the exempt neighbor. -/
def specC4_requires_quota_arc (csp : CSP) (var_index : Nat)
    (assignment : Assignment) (except_neighbor : Nat)
    (arc : ConstraintArc) : Prop :=
  ∃ pole_number, pole_number < 2 ∧ ∃ cell : Point,
    cell.row < csp.row_size ∧ cell.col < csp.col_size ∧
    (cell.row =
        ((csp.vars.getD var_index dummyVar).poles.getD pole_number
          dummyPoint).row ∨
      cell.col =
        ((csp.vars.getD var_index dummyVar).poles.getD pole_number
          dummyPoint).col) ∧
    cell ≠
      (csp.vars.getD var_index dummyVar).poles.getD pole_number dummyPoint ∧
    getN2 csp.board_variable_association cell.row cell.col ≠ var_index ∧
    getV assignment
      (getN2 csp.board_variable_association cell.row cell.col) =
      Value.Unassigned ∧
    getN2 csp.board_variable_association cell.row cell.col ≠
      except_neighbor ∧
    arc = ⟨getN2 csp.board_variable_association cell.row cell.col, var_index,
      Constraint.LimitBased
        (get_pole_number
          (csp.vars.getD
            (getN2 csp.board_variable_association cell.row cell.col)
            dummyVar) cell)
        pole_number⟩

/-- C4: on `cspC4` (one row, two unresolved horizontal dominoes), the spec
requires the generator run for domino 0 (exempt neighbor 99) to emit the
adjacency arc from domino 1 through the touching cells (0,1)-(0,2) and the
quota arc from domino 1 along the shared row, yet the generator emits no arc
at all: the direction filters in `get_neighboring_cells` and
`get_limiting_cells` drop every same-row cell of a horizontal domino. -/
theorem C4_arc_generator_omits_required_arcs :
    specC4_requires_adjacency_arc cspC4 0
      [Value.Unassigned, Value.Unassigned] 99
      ⟨1, 0, Constraint.SignBased 0 1⟩ ∧
    specC4_requires_quota_arc cspC4 0
      [Value.Unassigned, Value.Unassigned] 99
      ⟨1, 0, Constraint.LimitBased 0 0⟩ ∧
    cspC4.generate_arc_constraints 0
      [Value.Unassigned, Value.Unassigned] [] 99 = [] := by
  refine ⟨⟨1, by decide, ⟨0, 2⟩, by decide⟩,
    ⟨0, by decide, ⟨0, 2⟩, by decide⟩, by decide⟩
